import Mathlib

/-!
# The Maze Game: a shallow embedding of the per-frame game state of `game2.2.cpp`

The C++ program keeps its game state in file-level globals (player position,
facing flags, camera-mode flags, camera vectors) and in a few locals of `main`
(the floor oscillation phase).  The embedding below gathers them in one record,
`Game`, and translates each function and each block of the main loop that reads
or writes them into a function on `Game`.

Conventions.

* `float` variables hold binary32 values, kept as the rationals they denote.
  Every `float` addition and subtraction of the source is rounded by `f32`
  (round to nearest, ties to even, 24-bit significand); a literal is the
  rounded value of its decimal (`0.2f` is `f32 (1/5)`, `0.005f` is
  `f32 (1/200)`; `0.5f`, `1.5f` and the whole numbers are exact).  Comparisons
  are exact.  The exponent range of binary32 is not modelled: no value of the
  program comes near overflow or the subnormal range.
* `int` flags are integers; the source compares them with `== 1` and `== 0`.
* Key codes and actions are the integer constants of the GLFW 3 header.
* `quit` ends the process (`exit`), so an event handler that reaches it has no
  successor state: handlers return `Option Game`.
* The arrays `x`, `z`, `obsx`, `obsz` filled from `rand() % 20` at startup and
  the identifiers `in_air`, `on_gr` (read by the main loop but declared nowhere
  in the source file) are parameters, gathered in `Startup`.
* OpenGL calls (`drawCuboid`, `drawFloor`, `drawPaani`, `drawObs`) do not write
  any variable of `Game`; they are left out of the state functions.  The floor
  draw requests of a loop iteration are modelled on their own, as the list of
  translations handed to `drawFloor`.
-/

namespace MazeGame

/-! ## Binary32 arithmetic

The functions `forceNat`, `forceInt`, `forceQ` are the identity on their first
argument (`forceNat n f = f n`, and so on): the pattern match only fixes the
order of evaluation, so that a number is computed once before it is used. -/

/-- Apply `f` to `n`, after `n` has been computed. -/
def forceNat {α : Type} (n : Nat) (f : Nat → α) : α :=
  match n with
  | 0 => f 0
  | m + 1 => f (m + 1)

/-- Apply `f` to `i`, after `i` has been computed. -/
def forceInt {α : Type} (i : Int) (f : Int → α) : α :=
  match i with
  | Int.ofNat n => forceNat n fun m => f (Int.ofNat m)
  | Int.negSucc n => forceNat n fun m => f (Int.negSucc m)

/-- Apply `f` to `n` and the fact that it is `n`, after `n` has been computed. -/
def forceNatEq {α : Type} (n : Nat) (f : (m : Nat) → m = n → α) : α :=
  match n with
  | 0 => f 0 rfl
  | m + 1 => f (m + 1) rfl

/-- Apply `f` to `i` and the fact that it is `i`, after `i` has been computed. -/
def forceIntEq {α : Type} (i : Int) (f : (j : Int) → j = i → α) : α :=
  match i with
  | Int.ofNat n => forceNatEq n fun m hm => f (Int.ofNat m) (by rw [hm])
  | Int.negSucc n => forceNatEq n fun m hm => f (Int.negSucc m) (by rw [hm])

/-- Apply `f` to `q`, after numerator and denominator of `q` have been
computed. -/
def forceQ {α : Type} (q : ℚ) (f : ℚ → α) : α :=
  forceIntEq q.num fun n hn => forceNatEq q.den fun d hd =>
    f ⟨n, d, by rw [hd]; exact q.den_nz, by rw [hn, hd]; exact q.reduced⟩

/-- One step of the binary search of `log2N`: if `n` has a bit at position `k`
or above, drop the low `k` bits and add `k` to the count. -/
def stepL {α : Type} (k n acc : Nat) (f : Nat → Nat → α) : α :=
  forceNat (n >>> k) fun m => if m = 0 then f n acc else f m (acc + k)

/-- The position of the highest set bit of `n`, by repeated halving; `fuel`
bounds the number of halvings. -/
def log2F : Nat → Nat → Nat
  | 0, _ => 0
  | fuel + 1, n => if 2 ≤ n then log2F fuel (n / 2) + 1 else 0

/-- The position of the highest set bit of `n`, the integer part of its binary
logarithm: a binary search over the bit positions below 1024, and repeated
halving for the numbers of 1025 bits and more. -/
def log2N (n : Nat) : Nat :=
  forceNat (n >>> 1024) fun h =>
  if h = 0 then
    stepL 512 n 0 fun n a => stepL 256 n a fun n a => stepL 128 n a fun n a =>
    stepL 64 n a fun n a => stepL 32 n a fun n a => stepL 16 n a fun n a =>
    stepL 8 n a fun n a => stepL 4 n a fun n a => stepL 2 n a fun n a =>
    stepL 1 n a fun _ a => a
  else log2F n n

/-- The integer nearest to `n / d`, a tie going to the even neighbour. -/
def roundHalfEven (n d : Nat) : Nat :=
  forceNat (n / d) fun k => forceNat (2 * (n % d)) fun r2 =>
  if r2 < d then k
  else if d < r2 then k + 1
  else if k % 2 = 0 then k else k + 1

/-- The multiple of `2 ^ (-t)` nearest to `a / d`. -/
def scaleUp (a d t : Nat) : ℚ :=
  forceNat (2 ^ t) fun p => mkRat (roundHalfEven (a * p) d) p

/-- The multiple of `2 ^ t` nearest to `a / d`. -/
def scaleDown (a d t : Nat) : ℚ :=
  forceNat (2 ^ t) fun p => ((roundHalfEven a (d * p) * p : Nat) : ℚ)

/-- Rounding of the positive rational `a / d` to a 24-bit significand.  With
`e` the binary exponent of `a / d` (`2 ^ e ≤ a / d < 2 ^ (e + 1)`, found from
the bit lengths of `a` and `d` and one comparison), the result is the multiple
of `2 ^ (e - 23)` nearest to `a / d`. -/
def f32Abs (a d : Nat) : ℚ :=
  forceNat (log2N a) fun la => forceNat (log2N d) fun ld =>
  if ld ≤ la then
    -- `e + 1`, where `e` is `la - ld` or one less
    forceNat (if 2 ^ (la - ld) * d ≤ a then la - ld + 1 else la - ld) fun e1 =>
    if e1 ≤ 24 then scaleUp a d (24 - e1) else scaleDown a d (e1 - 24)
  else
    -- `-e`, where `e` is `-(ld - la)` or one less
    forceNat (if d ≤ a * 2 ^ (ld - la) then ld - la else ld - la + 1) fun k1 =>
    scaleUp a d (23 + k1)

/-- The binary32 value of the real number `q`: round to nearest, ties to even,
24-bit significand, unbounded exponent. -/
def f32 (q : ℚ) : ℚ :=
  match q.num with
  | Int.ofNat n => forceNat n fun a => if a = 0 then 0 else forceNat q.den fun d => f32Abs a d
  | Int.negSucc n => forceNat (n + 1) fun a => forceNat q.den fun d => -f32Abs a d

/-! ## State -/

/-- The mutable game state: the globals of lines 217-242 that are written
somewhere, and the oscillation locals of `main` (lines 1278-1280). -/
structure Game where
  x_cuboid : ℚ
  y_cuboid : ℚ
  z_cuboid : ℚ
  x_target : ℚ
  y_target : ℚ
  z_target : ℚ
  x_cam : ℚ
  y_cam : ℚ
  z_cam : ℚ
  x_axis : ℚ
  y_axis : ℚ
  z_axis : ℚ
  follow_flag : Int
  up_fl : Int
  down_fl : Int
  right_fl : Int
  left_fl : Int
  adv_fl : Int
  tower_fl : Int
  top_fl : Int
  heli_fl : Int
  jump_fl : Int
  dir_up : Int
  farsh_m_y : ℚ
  farsh_up_fl : Int

/-- The global `x_offset` (line 220); never assigned. -/
def x_offset : ℚ := 0
/-- The global `y_offset` (line 221); never assigned. -/
def y_offset : ℚ := 3
/-- The global `z_offset` (line 222); never assigned. -/
def z_offset : ℚ := 3
/-- The local `farsh_y` of `main` (line 1279); never assigned. -/
def farsh_y : ℚ := -1

/-- What the main loop reads that is fixed before the loop starts: the four
arrays filled from `rand() % 20` (lines 1286-1292, only indices `0..19` are ever
read) and the identifiers `in_air` and `on_gr`, which line 1373 reads and the
source file declares nowhere. -/
structure Startup where
  x : Nat → Int
  z : Nat → Int
  obsx : Nat → Int
  obsz : Nat → Int
  in_air : Int
  on_gr : Int

/-- The state at the first loop iteration: the initialisers of lines 217-242
(globals without initialiser are zero) and of lines 1278-1280. -/
def initial : Game where
  x_cuboid := 0
  y_cuboid := 0
  z_cuboid := 19
  x_target := 0
  y_target := 0
  z_target := 0
  x_cam := 0 + x_offset
  y_cam := 0 + y_offset
  z_cam := 19 + z_offset
  x_axis := 0
  y_axis := 1
  z_axis := 0
  follow_flag := 1
  up_fl := 0
  down_fl := 0
  right_fl := 0
  left_fl := 0
  adv_fl := 0
  tower_fl := 0
  top_fl := 0
  heli_fl := 0
  jump_fl := 0
  dir_up := 1
  farsh_m_y := -4
  farsh_up_fl := 1

/-! ## GLFW constants -/

def GLFW_RELEASE : Int := 0
def GLFW_PRESS : Int := 1
def GLFW_REPEAT : Int := 2
def GLFW_KEY_SPACE : Int := 32
def GLFW_KEY_A : Int := 65
def GLFW_KEY_F : Int := 70
def GLFW_KEY_P : Int := 80
def GLFW_KEY_T : Int := 84
def GLFW_KEY_ESCAPE : Int := 256
def GLFW_KEY_RIGHT : Int := 262
def GLFW_KEY_LEFT : Int := 263
def GLFW_KEY_DOWN : Int := 264
def GLFW_KEY_UP : Int := 265

/-! ## Camera resolvers (lines 243-328) -/

/-- `enableTopcam`, lines 243-259. -/
def enableTopcam (g : Game) : Game :=
  { g with
    x_cam := 10, y_cam := 15, z_cam := 10,
    x_axis := 0, y_axis := 0, z_axis := -1,
    x_target := g.x_cuboid, y_target := g.y_cuboid, z_target := g.z_cuboid,
    follow_flag := 0, adv_fl := 0, tower_fl := 0, heli_fl := 0 }

/-- `enableTowercam`, lines 260-275. -/
def enableTowercam (g : Game) : Game :=
  { g with
    x_cam := 0, y_cam := 5, z_cam := 20,
    x_axis := 0, y_axis := 1, z_axis := 0,
    x_target := g.x_cuboid, y_target := g.y_cuboid, z_target := g.z_cuboid,
    follow_flag := 0, adv_fl := 0, top_fl := 0, heli_fl := 0 }

/-- `enableFollowcam`, lines 276-290.  It clears `adv_fl`, `tower_fl` and
`heli_fl`; it does not write `top_fl` or `follow_flag`. -/
def enableFollowcam (g : Game) : Game :=
  { g with
    x_cam := f32 (g.x_cuboid + x_offset), y_cam := f32 (g.y_cuboid + y_offset),
    z_cam := f32 (g.z_cuboid + z_offset),
    x_axis := 0, y_axis := 1, z_axis := 0,
    x_target := g.x_cuboid, y_target := g.y_cuboid, z_target := g.z_cuboid,
    adv_fl := 0, tower_fl := 0, heli_fl := 0 }

/-- The `right_fl` branch of `enableAdvcam` (lines 300-305); the statement
`z_target = z_target` leaves `z_target` as it was. -/
def advRight (g : Game) : Game :=
  if g.right_fl = 1 then
    { g with x_target := 20, y_target := g.y_cuboid, z_target := g.z_target }
  else g

/-- The `left_fl` branch of `enableAdvcam` (lines 306-311). -/
def advLeft (g : Game) : Game :=
  if g.left_fl = 1 then
    { g with x_target := 0, y_target := g.y_cuboid, z_target := g.z_target }
  else g

/-- The `up_fl` branch of `enableAdvcam` (lines 312-317). -/
def advUp (g : Game) : Game :=
  if g.up_fl = 1 then
    { g with x_target := g.x_cuboid, y_target := g.y_cuboid, z_target := 0 }
  else g

/-- The `down_fl` branch of `enableAdvcam` (lines 318-323). -/
def advDown (g : Game) : Game :=
  if g.down_fl = 1 then
    { g with x_target := g.x_cuboid, y_target := g.y_cuboid, z_target := 20 }
  else g

/-- `enableAdvcam`, lines 292-328: eye and up vector, the four consecutive
facing branches, then the flag clearing. -/
def enableAdvcam (g : Game) : Game :=
  let g0 : Game :=
    { g with
      x_cam := f32 (g.x_cuboid + 1/2), y_cam := f32 (g.y_cuboid + 3/2),
        z_cam := f32 (g.z_cuboid + 1/2),
      x_axis := 0, y_axis := 1, z_axis := 0 }
  let g4 := advDown (advUp (advLeft (advRight g0)))
  { g4 with follow_flag := 0, top_fl := 0, tower_fl := 0, heli_fl := 0 }

/-! ## Position queries (lines 345-359) -/

/-- `checkIfObs`, lines 345-359 (the live `if`; the block above it is a
comment). -/
def checkIfObs (x_obs z_obs : ℚ) (g : Game) : Bool :=
  if g.x_cuboid > x_obs ∧ g.x_cuboid < x_obs + 1 ∧
      g.z_cuboid > z_obs ∧ g.z_cuboid < z_obs + 1 then true else false

/-! ## Input handlers (lines 366-507) -/

/-- `quit`, lines 118-123: the process exits, there is no next state. -/
def quit (_g : Game) : Option Game := none

/-- `keyboard`, lines 366-476.  The parameters `window`, `scancode` and `mods`
are not read (apart from `window` being handed to `quit`). -/
def keyboard (key action : Int) (g : Game) : Option Game :=
  if action = GLFW_RELEASE then
    if key = GLFW_KEY_UP then
      some { g with z_cuboid := f32 (g.z_cuboid - f32 (1/5)),
                    up_fl := 1, down_fl := 0, right_fl := 0, left_fl := 0 }
    else if key = GLFW_KEY_DOWN then
      some { g with z_cuboid := f32 (g.z_cuboid + f32 (1/5)),
                    up_fl := 0, down_fl := 1, right_fl := 0, left_fl := 0 }
    else if key = GLFW_KEY_RIGHT then
      some { g with x_cuboid := f32 (g.x_cuboid + f32 (1/5)),
                    up_fl := 0, down_fl := 0, right_fl := 1, left_fl := 0 }
    else if key = GLFW_KEY_LEFT then
      some { g with up_fl := 0, down_fl := 0, right_fl := 0, left_fl := 1,
                    x_cuboid := f32 (g.x_cuboid - f32 (1/5)) }
    else if key = GLFW_KEY_SPACE then
      some { g with jump_fl := 1 }
    else if key = GLFW_KEY_T then
      some { g with tower_fl := 1, top_fl := 0, adv_fl := 0, follow_flag := 0, heli_fl := 0 }
    else if key = GLFW_KEY_P then
      some { g with tower_fl := 0, adv_fl := 0, follow_flag := 0, heli_fl := 0, top_fl := 1 }
    else if key = GLFW_KEY_A then
      some { g with adv_fl := 1, tower_fl := 0, top_fl := 0, follow_flag := 0, heli_fl := 0 }
    else if key = GLFW_KEY_F then
      some { g with follow_flag := 1, adv_fl := 0, tower_fl := 0, top_fl := 0, heli_fl := 0 }
    else some g
  else if action = GLFW_REPEAT then
    if key = GLFW_KEY_UP then some { g with z_cuboid := f32 (g.z_cuboid - f32 (1/5)) }
    else if key = GLFW_KEY_DOWN then some { g with z_cuboid := f32 (g.z_cuboid + f32 (1/5)) }
    else if key = GLFW_KEY_RIGHT then some { g with x_cuboid := f32 (g.x_cuboid + f32 (1/5)) }
    else if key = GLFW_KEY_LEFT then some { g with x_cuboid := f32 (g.x_cuboid - f32 (1/5)) }
    else some g
  else if action = GLFW_PRESS then
    if key = GLFW_KEY_ESCAPE then quit g
    else some g
  else some g

/-! ## The main loop body (lines 1295-1397) -/

/-- First oscillation statement, lines 1296-1297. -/
def oscillate1 (g : Game) : Game :=
  if g.farsh_m_y < 2 ∧ g.farsh_up_fl = 1 then
    { g with farsh_m_y := f32 (g.farsh_m_y + f32 (1/200)) }
  else g

/-- Second oscillation statement, lines 1299-1300. -/
def oscillate2 (g : Game) : Game :=
  if g.farsh_m_y ≥ 2 ∧ g.farsh_up_fl = 1 then { g with farsh_up_fl := 0 } else g

/-- Third oscillation statement, lines 1302-1303. -/
def oscillate3 (g : Game) : Game :=
  if g.farsh_m_y > -4 ∧ g.farsh_up_fl = 0 then
    { g with farsh_m_y := f32 (g.farsh_m_y - f32 (1/200)) }
  else g

/-- Fourth oscillation statement, lines 1305-1306. -/
def oscillate4 (g : Game) : Game :=
  if g.farsh_m_y ≤ -4 ∧ g.farsh_up_fl = 0 then { g with farsh_up_fl := 1 } else g

/-- The per-frame oscillation update: the four consecutive `if` statements of
lines 1296-1306. -/
def oscillate (g : Game) : Game :=
  oscillate4 (oscillate3 (oscillate2 (oscillate1 g)))

/-- First camera statement, lines 1309-1312. -/
def resolveFollow (g : Game) : Game :=
  if g.follow_flag = 1 then enableFollowcam g else { g with follow_flag := 0 }

/-- Second camera statement, lines 1314-1317. -/
def resolveAdv (g : Game) : Game :=
  if g.adv_fl = 1 then enableAdvcam g else { g with adv_fl := 0 }

/-- Third camera statement, lines 1318-1321. -/
def resolveTop (g : Game) : Game :=
  if g.top_fl = 1 then enableTopcam g else { g with top_fl := 0 }

/-- Fourth camera statement, lines 1322-1325. -/
def resolveTower (g : Game) : Game :=
  if g.tower_fl = 1 then enableTowercam g else { g with tower_fl := 0 }

/-- The per-frame camera resolution, lines 1309-1325: four consecutive
`if ... else` statements, each reading the flags left by the previous one. -/
def resolveCamera (g : Game) : Game :=
  resolveTower (resolveTop (resolveAdv (resolveFollow g)))

/-- The boundary check, lines 1373-1380.  The `if` of line 1373 has no body of
its own, so the `if` of line 1376 is its body. -/
def boundaryCheck (w : Startup) (g : Game) : Game :=
  if g.jump_fl = 1 ∨ (w.in_air = 0 ∧ w.on_gr = 1) then
    if g.x_cuboid < -1 ∨ g.x_cuboid > 18 ∨ g.z_cuboid < -1 ∨ g.z_cuboid > 20 then
      { g with x_cuboid := 0, z_cuboid := 19 }
    else g
  else g

/-- The state effect of one iteration `(i, k)` of the floor loop, lines
1392-1396: the obstacle test is made against `(x[i], z[k])`. -/
def floorCell (w : Startup) (i k : Nat) (g : Game) : Game :=
  if checkIfObs (w.x i) (w.z k) g = true then
    { g with x_cuboid := 0, z_cuboid := 19 }
  else g

/-- The state effect of the floor loop, lines 1384-1397:
`for i in 0..16, for k in 0..19`. -/
def floorLoop (w : Startup) (g : Game) : Game :=
  (List.range 17).foldl
    (fun g i => (List.range 20).foldl (fun g k => floorCell w i k g) g) g

/-- One iteration of the main loop up to `glfwPollEvents`: oscillation, camera
resolution, boundary check, floor loop. -/
def frame (w : Startup) (g : Game) : Game :=
  floorLoop w (boundaryCheck w (resolveCamera (oscillate g)))

/-! ## Runs of the program -/

/-- What happens between two states of the loop: a key callback delivered by
`glfwPollEvents`, or one loop iteration. -/
inductive Event where
  | key (key action : Int)
  | tick

/-- Apply one event. -/
def step (w : Startup) (g : Game) : Event → Option Game
  | Event.key k a => keyboard k a g
  | Event.tick => some (frame w g)

/-- Apply a list of events in order; `none` once the process has exited. -/
def run (w : Startup) : List Event → Game → Option Game
  | [], g => some g
  | e :: es, g => (step w g e).bind (run w es)

/-- States reachable from `initial` by key events, per-frame camera resolution
steps and whole loop iterations. -/
inductive Reachable (w : Startup) : Game → Prop where
  | init : Reachable w initial
  | key {g g1 : Game} (k a : Int) :
      Reachable w g → keyboard k a g = some g1 → Reachable w g1
  | camera {g : Game} : Reachable w g → Reachable w (resolveCamera g)
  | frame {g : Game} : Reachable w g → Reachable w (frame w g)

/-- How many of the four camera-mode flags equal 1. -/
def activeModes (g : Game) : Nat :=
  ([g.follow_flag, g.top_fl, g.tower_fl, g.adv_fl].filter (fun f => f = 1)).length

/-- Exactly one camera-mode flag is 1 and the other three are 0. -/
def OneMode (g : Game) : Prop :=
  (g.follow_flag = 1 ∧ g.top_fl = 0 ∧ g.tower_fl = 0 ∧ g.adv_fl = 0) ∨
  (g.follow_flag = 0 ∧ g.top_fl = 1 ∧ g.tower_fl = 0 ∧ g.adv_fl = 0) ∨
  (g.follow_flag = 0 ∧ g.top_fl = 0 ∧ g.tower_fl = 1 ∧ g.adv_fl = 0) ∨
  (g.follow_flag = 0 ∧ g.top_fl = 0 ∧ g.tower_fl = 0 ∧ g.adv_fl = 1)

/-- The oscillation state `(farsh_m_y, farsh_up_fl)`. -/
def oscState (g : Game) : ℚ × Int := (g.farsh_m_y, g.farsh_up_fl)

/-- The order of the integers as a Boolean function, by cases on the signs. -/
def intLt : Int → Int → Bool
  | Int.ofNat a, Int.ofNat b => Nat.blt a b
  | Int.ofNat _, Int.negSucc _ => false
  | Int.negSucc _, Int.ofNat _ => true
  | Int.negSucc a, Int.negSucc b => Nat.blt b a

/-- The order of the rationals as a Boolean function: cross-multiplication. -/
def qlt (a b : ℚ) : Bool := intLt (a.num * b.den) (b.num * a.den)

/-- Apply `g` to the pair `p`, after its components have been computed. -/
def forceP {α : Type} (p : ℚ × Int) (g : ℚ × Int → α) : α :=
  forceQ p.1 fun y => forceInt p.2 fun f => g (y, f)

/-- The first oscillation statement on the pair `(farsh_m_y, farsh_up_fl)`, with
the step `c`. -/
def phase1 (c : ℚ) (p : ℚ × Int) : ℚ × Int :=
  if (qlt p.1 2 && decide (p.2 = 1)) = true then (f32 (p.1 + c), p.2) else p

/-- The second oscillation statement on the pair. -/
def phase2 (p : ℚ × Int) : ℚ × Int :=
  if (!qlt p.1 2 && decide (p.2 = 1)) = true then (p.1, 0) else p

/-- The third oscillation statement on the pair, with the step `c`. -/
def phase3 (c : ℚ) (p : ℚ × Int) : ℚ × Int :=
  if (qlt (-4) p.1 && decide (p.2 = 0)) = true then (f32 (p.1 - c), p.2) else p

/-- The fourth oscillation statement on the pair. -/
def phase4 (p : ℚ × Int) : ℚ × Int :=
  if (!qlt (-4) p.1 && decide (p.2 = 0)) = true then (p.1, 1) else p

/-- The four oscillation statements on the pair. -/
def phaseStep (c : ℚ) (p : ℚ × Int) : ℚ × Int := phase4 (phase3 c (phase2 (phase1 c p)))

/-- Run `n` frames of the oscillation from the pair `p`, testing `P` at every
frame: `P k p p1 p4` is given the number `k` of frames still to run after this
one, the pair `p` before the frame, the pair `p1` after its first statement and
the pair `p4` after its fourth.  The result is the pair after the `n` frames if
every test succeeded. -/
def orbitCheck (c : ℚ) (P : Nat → ℚ × Int → ℚ × Int → ℚ × Int → Bool) :
    Nat → ℚ × Int → Option (ℚ × Int)
  | 0, p => some p
  | n + 1, p =>
      forceP (phase1 c p) fun p1 =>
      forceP (phase4 (phase3 c (phase2 p1))) fun p4 =>
      if P n p p1 p4 = true then orbitCheck c P n p4 else none

/-- The largest value `farsh_m_y` takes: `2.0000422` (binary32), reached by the
first statement of frame 1200. -/
def overshoot : ℚ := 8388785/4194304

/-- What is tested at each of the 2399 frames of a period (`n` frames still to
run): the phase is in `[-4, overshoot]` after the first statement and in
`[-4, 2)` after the fourth; the state is not the starting state before the last
frame; frame 1200 overshoots; the phase rises before it and falls after it. -/
def orbitOk (n : Nat) (p p1 p4 : ℚ × Int) : Bool :=
  (!qlt p1.1 (-4) && !qlt overshoot p1.1 && !qlt p4.1 (-4) && qlt p4.1 2) &&
  (decide (n = 0) || decide (p4 ≠ (-4, 1))) &&
  (if n = 1199 then decide (p1.1 = overshoot) && decide (p4.2 = 0) else true) &&
  (if 1200 ≤ n then qlt p.1 p4.1 && decide (p4.2 = 1) else true) &&
  (if n < 1199 then qlt p4.1 p.1 && (decide (n = 0) || decide (p4.2 = 0)) else true)

/-- The function `f` applied `n` times, each value computed before the next
application. -/
def iterF (f : ℚ → ℚ) : Nat → ℚ → ℚ
  | 0, x => x
  | n + 1, x => forceQ (f x) (iterF f n)

/-- A startup with every array entry 0 and `in_air = on_gr = 0`. -/
def startup0 : Startup where
  x := fun _ => 0
  z := fun _ => 0
  obsx := fun _ => 0
  obsz := fun _ => 0
  in_air := 0
  on_gr := 0

/-- The player part of the state: position, facing flags, `jump_fl`, `dir_up`. -/
def playerOf (g : Game) : ℚ × ℚ × ℚ × Int × Int × Int × Int × Int × Int :=
  (g.x_cuboid, g.y_cuboid, g.z_cuboid, g.up_fl, g.down_fl, g.right_fl, g.left_fl,
    g.jump_fl, g.dir_up)

/-- The position passes the test of line 1376: no reset is due. -/
def InBox (g : Game) : Prop :=
  -1 ≤ g.x_cuboid ∧ g.x_cuboid ≤ 18 ∧ -1 ≤ g.z_cuboid ∧ g.z_cuboid ≤ 20

/-- `n` REPEAT events of the key `k`: the key is held down. -/
def held (k : Int) (n : Nat) : List Event := List.replicate n (Event.key k GLFW_REPEAT)

/-- A startup whose drawn obstacles all sit at `(0, 17)` while the arrays `x` and
`z` read by the floor loop hold 5 everywhere; `in_air` and `on_gr` are `a` and
`b`. -/
def startupObs (a b : Int) : Startup where
  x := fun _ => 5
  z := fun _ => 5
  obsx := fun _ => 0
  obsz := fun _ => 17
  in_air := a
  on_gr := b

/-- The first loop iteration, RIGHT held for one REPEAT event, UP held for six
REPEAT events, the next loop iteration. -/
def obstacleEvents : List Event :=
  Event.tick :: (held GLFW_KEY_RIGHT 1 ++ (held GLFW_KEY_UP 6 ++ [Event.tick]))

/-- The player stands at `(0, 0, 18.3999977)`, three UP steps from the spawn
point (`z = 4823449/262144` in binary32), in the half-open footprint of an
obstacle corner `(0, 18)`. -/
def onObstacleEdge : Game := { initial with z_cuboid := 4823449/262144, up_fl := 1 }

/-- The first loop iteration, UP held for fifteen REPEAT events, the next loop
iteration. -/
def followEvents : List Event :=
  Event.tick :: (held GLFW_KEY_UP 15 ++ [Event.tick])

/-- RELEASE events of RIGHT, one per list entry, the entry telling whether a
loop iteration runs after the event. -/
def rightScenario : List Bool → List Event
  | [] => []
  | true :: fs => Event.key GLFW_KEY_RIGHT GLFW_RELEASE :: Event.tick :: rightScenario fs
  | false :: fs => Event.key GLFW_KEY_RIGHT GLFW_RELEASE :: rightScenario fs

/-- The events of an adventure-camera session: the first loop iteration, A
released, UP released, a loop iteration, RIGHT released. -/
def advEvents : List Event :=
  [Event.tick,
   Event.key GLFW_KEY_A GLFW_RELEASE,
   Event.key GLFW_KEY_UP GLFW_RELEASE,
   Event.tick,
   Event.key GLFW_KEY_RIGHT GLFW_RELEASE]

/-- The state reached by `advEvents`, in which the next loop iteration calls
`enableAdvcam`: adventure mode, facing right, player at `(0.2f, 0, 19 - 0.2f)`,
which is `(0.2, 0, 18.7999992)`, target `(0, 0, 0)` left by the previous call
(which faced up). -/
def advFacingRight : Game :=
  { initial with
    x_cuboid := 13421773/67108864, z_cuboid := 4928307/262144, right_fl := 1,
    follow_flag := 0, adv_fl := 1,
    x_cam := 1/2, y_cam := 3/2, z_cam := 5059379/262144,
    x_target := 0, y_target := 0, z_target := 0,
    farsh_m_y := -2091909/524288 }

/-! ## Further input handlers and the floor draw requests -/

def GLFW_MOUSE_BUTTON_LEFT : Int := 0
def GLFW_MOUSE_BUTTON_RIGHT : Int := 1

/-- `keyboardChar`, lines 479-489: `'Q'` (81) and `'q'` (113) quit, every other
character does nothing.  The parameter is an `unsigned int`. -/
def keyboardChar (key : Nat) (g : Game) : Option Game :=
  if key = 81 then quit g
  else if key = 113 then quit g
  else some g

/-- `mouseButton`, lines 492-507.  In the LEFT case the `break` belongs to the
`if`, so a LEFT event that is not a RELEASE falls through into the RIGHT case;
no branch writes a variable. -/
def mouseButton (button action : Int) (g : Game) : Game :=
  if button = GLFW_MOUSE_BUTTON_LEFT then
    if action = GLFW_RELEASE then g
    else if action = GLFW_RELEASE then g else g
  else if button = GLFW_MOUSE_BUTTON_RIGHT then
    if action = GLFW_RELEASE then g else g
  else g

/-- Conversion of a `float` argument to an `int` parameter: the fractional part
is discarded (truncation toward zero). -/
def floatToInt (q : ℚ) : Int := if 0 ≤ q then ⌊q⌋ else ⌈q⌉

/-- The draw request of `drawFloor`, lines 1037-1083: the translation
`glm::vec3(x_floor, y_floor, z_floor)` of its three `int` parameters. -/
def drawFloor (x_floor y_floor z_floor : Int) : Int × Int × Int :=
  (x_floor, y_floor, z_floor)

/-- The floor draw of one iteration `(i, k)` of the floor loop, lines 1387-1390:
`drawFloor(i, farsh_y, k)` or `drawFloor(i, farsh_m_y, k)`, the `float` second
argument converted to the `int` parameter `y_floor`. -/
def floorCellRequest (w : Startup) (g : Game) (i k : Nat) : Int × Int × Int :=
  if (i : Int) ≠ w.x i ∧ (k : Int) ≠ w.z i then drawFloor i (floatToInt farsh_y) k
  else drawFloor i (floatToInt g.farsh_m_y) k

/-- The floor draw requests of one loop iteration, in order, lines 1384-1391. -/
def floorRequests (w : Startup) (g : Game) : List (Int × Int × Int) :=
  ((List.range 17).map fun i => (List.range 20).map fun k => floorCellRequest w g i k).flatten

/-- The initial state after a RELEASE of SPACE. -/
def jumping : Game := { initial with jump_fl := 1 }

/-! ## Evaluation order and comparisons -/

theorem forceNat_eq {α : Type} (n : Nat) (f : Nat → α) : forceNat n f = f n := by
  unfold forceNat
  cases n <;> rfl

theorem forceInt_eq {α : Type} (i : Int) (f : Int → α) : forceInt i f = f i := by
  unfold forceInt
  cases i <;> simp only [forceNat_eq]

theorem forceNatEq_eq {α : Type} (n : Nat) (f : (m : Nat) → m = n → α) :
    forceNatEq n f = f n rfl := by
  unfold forceNatEq
  cases n <;> rfl

theorem forceIntEq_eq {α : Type} (i : Int) (f : (j : Int) → j = i → α) :
    forceIntEq i f = f i rfl := by
  unfold forceIntEq
  cases i <;> simp only [forceNatEq_eq]

theorem forceQ_eq {α : Type} (q : ℚ) (f : ℚ → α) : forceQ q f = f q := by
  unfold forceQ
  rw [forceIntEq_eq, forceNatEq_eq]

theorem forceP_eq {α : Type} (p : ℚ × Int) (g : ℚ × Int → α) : forceP p g = g p := by
  unfold forceP
  rw [forceQ_eq, forceInt_eq]

theorem iterF_eq (f : ℚ → ℚ) (n : Nat) : ∀ x, iterF f n x = f^[n] x := by
  induction n with
  | zero => intro x; rfl
  | succ n ih =>
    intro x
    rw [iterF, forceQ_eq, ih, Function.iterate_succ_apply]

theorem intLt_iff (i j : Int) : intLt i j = true ↔ i < j := by
  cases i with
  | ofNat a =>
    cases j with
    | ofNat b => simp only [intLt, Nat.blt_eq, Int.ofNat_eq_coe]; omega
    | negSucc b =>
      simp only [intLt, Int.ofNat_eq_coe, Int.negSucc_eq, Bool.false_eq_true, false_iff]; omega
  | negSucc a =>
    cases j with
    | ofNat b =>
      simp only [intLt, Int.ofNat_eq_coe, Int.negSucc_eq, true_iff]; omega
    | negSucc b => simp only [intLt, Nat.blt_eq, Int.negSucc_eq]; omega

theorem qlt_iff (a b : ℚ) : qlt a b = true ↔ a < b := by
  unfold qlt
  rw [intLt_iff, Rat.lt_def]

theorem qlt_false_iff (a b : ℚ) : qlt a b = false ↔ b ≤ a := by
  rw [← not_lt, ← qlt_iff, Bool.not_eq_true]

/-! ## Values of `f32` -/

/-- The literal `0.2f`. -/
theorem f32_fifth : f32 (1/5) = 13421773/67108864 := by decide!

/-- The literal `0.005f`. -/
theorem f32_two_hundredth : f32 (1/200) = 5368709/1073741824 := by decide!

/-- Whole numbers and halves of this size are binary32 values; a tie goes to the
even significand. -/
theorem f32_samples :
    f32 0 = 0 ∧ f32 3 = 3 ∧ f32 22 = 22 ∧ f32 (-4) = -4 ∧ f32 (1/2) = 1/2 ∧ f32 (3/2) = 3/2 ∧
    f32 (1 + 1/16777216) = 1 ∧ f32 (1 + 3/16777216) = 1 + 1/4194304 ∧
    f32 (-(1 + 3/16777216)) = -(1 + 1/4194304) := by
  decide!

/-! ## General lemmas on the loop body -/

/-- A property kept by every step of a loop is kept by the loop. -/
theorem foldl_invariant {α β : Type} (P : β → Prop) (f : β → α → β) (l : List α)
    (hf : ∀ b a, P b → P (f b a)) (b : β) (hb : P b) : P (l.foldl f b) := by
  induction l generalizing b with
  | nil => simpa using hb
  | cons a l ih => exact ih (f b a) (hf b a hb)

/-- The floor loop either leaves the state alone or respawns the player. -/
theorem floorLoop_cases (w : Startup) (g : Game) :
    floorLoop w g = g ∨ floorLoop w g = { g with x_cuboid := 0, z_cuboid := 19 } := by
  unfold floorLoop
  refine foldl_invariant (fun b => b = g ∨ b = { g with x_cuboid := 0, z_cuboid := 19 })
    _ _ ?_ g (Or.inl rfl)
  intro b i hb
  refine foldl_invariant (fun b => b = g ∨ b = { g with x_cuboid := 0, z_cuboid := 19 })
    _ _ ?_ b hb
  intro c k hc
  unfold floorCell
  split_ifs
  · rcases hc with rfl | rfl <;> simp
  · exact hc

/-- When no cell test fires at the current position the floor loop is the
identity. -/
theorem floorLoop_fixed (w : Startup) (g : Game)
    (h : ∀ i k, checkIfObs (w.x i) (w.z k) g = false) : floorLoop w g = g := by
  unfold floorLoop
  refine foldl_invariant (fun b => b = g) _ _ ?_ g rfl
  intro b i hb
  refine foldl_invariant (fun b => b = g) _ _ ?_ b hb
  intro c k hc
  subst hc
  simp [floorCell, h]

/-- The boundary check either leaves the state alone or respawns the player. -/
theorem boundaryCheck_cases (w : Startup) (g : Game) :
    boundaryCheck w g = g ∨ boundaryCheck w g = { g with x_cuboid := 0, z_cuboid := 19 } := by
  unfold boundaryCheck
  split_ifs <;> simp

/-- A property of both branches is a property of the conditional. -/
theorem ite_rec {α : Type} (P : α → Prop) (c : Prop) [Decidable c] (a b : α)
    (ha : P a) (hb : P b) : P (if c then a else b) := by
  split_ifs <;> assumption

/-- Case analysis on the outcome of `keyboard`: the process exits, the state is
left alone, or one of the thirteen assignments blocks has run. -/
theorem keyboard_rec (P : Option Game → Prop) (k a : Int) (g : Game)
    (hquit : P none) (hnop : P (some g))
    (hup : P (some { g with
        z_cuboid := f32 (g.z_cuboid - f32 (1/5)),
        up_fl := 1, down_fl := 0, right_fl := 0, left_fl := 0 }))
    (hdown : P (some { g with
        z_cuboid := f32 (g.z_cuboid + f32 (1/5)),
        up_fl := 0, down_fl := 1, right_fl := 0, left_fl := 0 }))
    (hright : P (some { g with
        x_cuboid := f32 (g.x_cuboid + f32 (1/5)),
        up_fl := 0, down_fl := 0, right_fl := 1, left_fl := 0 }))
    (hleft : P (some { g with
        up_fl := 0, down_fl := 0, right_fl := 0, left_fl := 1,
        x_cuboid := f32 (g.x_cuboid - f32 (1/5)) }))
    (hspace : P (some { g with
        jump_fl := 1 }))
    (hT : P (some { g with
        tower_fl := 1, top_fl := 0, adv_fl := 0, follow_flag := 0,
        heli_fl := 0 }))
    (hP : P (some { g with
        tower_fl := 0, adv_fl := 0, follow_flag := 0, heli_fl := 0,
        top_fl := 1 }))
    (hA : P (some { g with
        adv_fl := 1, tower_fl := 0, top_fl := 0, follow_flag := 0,
        heli_fl := 0 }))
    (hF : P (some { g with
        follow_flag := 1, adv_fl := 0, tower_fl := 0, top_fl := 0,
        heli_fl := 0 }))
    (hup2 : P (some { g with
        z_cuboid := f32 (g.z_cuboid - f32 (1/5)) }))
    (hdown2 : P (some { g with
        z_cuboid := f32 (g.z_cuboid + f32 (1/5)) }))
    (hright2 : P (some { g with
        x_cuboid := f32 (g.x_cuboid + f32 (1/5)) }))
    (hleft2 : P (some { g with
        x_cuboid := f32 (g.x_cuboid - f32 (1/5)) })) :
    P (keyboard k a g) := by
  rw [keyboard]
  repeat' apply ite_rec P
  all_goals assumption

theorem keyboard_oneMode {k a : Int} {g g1 : Game} (h : keyboard k a g = some g1)
    (hg : OneMode g) : OneMode g1 := by
  revert g1
  apply keyboard_rec (fun r => ∀ g1, r = some g1 → OneMode g1) k a g <;> intro g1 h <;>
    first
    | (cases h; done)
    | (cases h; exact hg)
    | (cases h; simp [OneMode])

theorem advRight_eq (g : Game) :
    ∃ a b c, advRight g = { g with x_target := a, y_target := b, z_target := c } := by
  unfold advRight
  split_ifs <;> exact ⟨_, _, _, rfl⟩

theorem advLeft_eq (g : Game) :
    ∃ a b c, advLeft g = { g with x_target := a, y_target := b, z_target := c } := by
  unfold advLeft
  split_ifs <;> exact ⟨_, _, _, rfl⟩

theorem advUp_eq (g : Game) :
    ∃ a b c, advUp g = { g with x_target := a, y_target := b, z_target := c } := by
  unfold advUp
  split_ifs <;> exact ⟨_, _, _, rfl⟩

theorem advDown_eq (g : Game) :
    ∃ a b c, advDown g = { g with x_target := a, y_target := b, z_target := c } := by
  unfold advDown
  split_ifs <;> exact ⟨_, _, _, rfl⟩

/-- What `enableAdvcam` writes: eye, up vector, target, and four flags. -/
theorem enableAdvcam_eq (g : Game) :
    ∃ a b c, enableAdvcam g =
      { g with
        x_cam := f32 (g.x_cuboid + 1/2), y_cam := f32 (g.y_cuboid + 3/2),
        z_cam := f32 (g.z_cuboid + 1/2),
        x_axis := 0, y_axis := 1, z_axis := 0,
        x_target := a, y_target := b, z_target := c,
        follow_flag := 0, top_fl := 0, tower_fl := 0, heli_fl := 0 } := by
  unfold enableAdvcam
  obtain ⟨a1, b1, c1, h1⟩ := advRight_eq { g with
      x_cam := f32 (g.x_cuboid + 1/2), y_cam := f32 (g.y_cuboid + 3/2),
        z_cam := f32 (g.z_cuboid + 1/2),
      x_axis := 0, y_axis := 1, z_axis := 0 }
  obtain ⟨a2, b2, c2, h2⟩ := advLeft_eq { g with
      x_cam := f32 (g.x_cuboid + 1/2), y_cam := f32 (g.y_cuboid + 3/2),
        z_cam := f32 (g.z_cuboid + 1/2),
      x_axis := 0, y_axis := 1, z_axis := 0, x_target := a1, y_target := b1, z_target := c1 }
  obtain ⟨a3, b3, c3, h3⟩ := advUp_eq { g with
      x_cam := f32 (g.x_cuboid + 1/2), y_cam := f32 (g.y_cuboid + 3/2),
        z_cam := f32 (g.z_cuboid + 1/2),
      x_axis := 0, y_axis := 1, z_axis := 0, x_target := a2, y_target := b2, z_target := c2 }
  obtain ⟨a4, b4, c4, h4⟩ := advDown_eq { g with
      x_cam := f32 (g.x_cuboid + 1/2), y_cam := f32 (g.y_cuboid + 3/2),
        z_cam := f32 (g.z_cuboid + 1/2),
      x_axis := 0, y_axis := 1, z_axis := 0, x_target := a3, y_target := b3, z_target := c3 }
  refine ⟨a4, b4, c4, ?_⟩
  simp only []
  rw [h1, h2, h3, h4]

theorem resolveFollow_oneMode {g : Game} (hg : OneMode g) : OneMode (resolveFollow g) := by
  unfold OneMode at *
  unfold resolveFollow
  split_ifs <;> simp only [enableFollowcam] <;> rcases hg with h | h | h | h <;> simp_all

theorem resolveAdv_oneMode {g : Game} (hg : OneMode g) : OneMode (resolveAdv g) := by
  unfold OneMode at *
  unfold resolveAdv
  split_ifs
  · obtain ⟨a, b, c, h⟩ := enableAdvcam_eq g
    rw [h]; simp only; rcases hg with h | h | h | h <;> simp_all
  · simp only; rcases hg with h | h | h | h <;> simp_all

theorem resolveTop_oneMode {g : Game} (hg : OneMode g) : OneMode (resolveTop g) := by
  unfold OneMode at *
  unfold resolveTop
  split_ifs <;> simp only [enableTopcam] <;> rcases hg with h | h | h | h <;> simp_all

theorem resolveTower_oneMode {g : Game} (hg : OneMode g) : OneMode (resolveTower g) := by
  unfold OneMode at *
  unfold resolveTower
  split_ifs <;> simp only [enableTowercam] <;> rcases hg with h | h | h | h <;> simp_all

theorem resolveCamera_oneMode {g : Game} (hg : OneMode g) : OneMode (resolveCamera g) :=
  resolveTower_oneMode (resolveTop_oneMode (resolveAdv_oneMode (resolveFollow_oneMode hg)))

theorem oscillate1_eq (g : Game) :
    ∃ y f, oscillate1 g = { g with farsh_m_y := y, farsh_up_fl := f } := by
  unfold oscillate1
  split_ifs <;> exact ⟨_, _, rfl⟩

theorem oscillate2_eq (g : Game) :
    ∃ y f, oscillate2 g = { g with farsh_m_y := y, farsh_up_fl := f } := by
  unfold oscillate2
  split_ifs <;> exact ⟨_, _, rfl⟩

theorem oscillate3_eq (g : Game) :
    ∃ y f, oscillate3 g = { g with farsh_m_y := y, farsh_up_fl := f } := by
  unfold oscillate3
  split_ifs <;> exact ⟨_, _, rfl⟩

theorem oscillate4_eq (g : Game) :
    ∃ y f, oscillate4 g = { g with farsh_m_y := y, farsh_up_fl := f } := by
  unfold oscillate4
  split_ifs <;> exact ⟨_, _, rfl⟩

/-- The oscillation update writes `farsh_m_y` and `farsh_up_fl` only. -/
theorem oscillate_eq (g : Game) :
    ∃ y f, oscillate g = { g with farsh_m_y := y, farsh_up_fl := f } := by
  unfold oscillate
  obtain ⟨y1, f1, h1⟩ := oscillate1_eq g
  obtain ⟨y2, f2, h2⟩ := oscillate2_eq { g with farsh_m_y := y1, farsh_up_fl := f1 }
  obtain ⟨y3, f3, h3⟩ := oscillate3_eq { g with farsh_m_y := y2, farsh_up_fl := f2 }
  obtain ⟨y4, f4, h4⟩ := oscillate4_eq { g with farsh_m_y := y3, farsh_up_fl := f3 }
  exact ⟨y4, f4, by rw [h1, h2, h3, h4]⟩

theorem oscillate_oneMode {g : Game} (hg : OneMode g) : OneMode (oscillate g) := by
  obtain ⟨y, f, h⟩ := oscillate_eq g
  rw [h]; exact hg

theorem boundaryCheck_oneMode (w : Startup) {g : Game} (hg : OneMode g) :
    OneMode (boundaryCheck w g) := by
  rcases boundaryCheck_cases w g with h | h <;> rw [h] <;> exact hg

theorem floorLoop_oneMode (w : Startup) {g : Game} (hg : OneMode g) :
    OneMode (floorLoop w g) := by
  rcases floorLoop_cases w g with h | h <;> rw [h] <;> exact hg

theorem frame_oneMode (w : Startup) {g : Game} (hg : OneMode g) : OneMode (frame w g) :=
  floorLoop_oneMode w (boundaryCheck_oneMode w (resolveCamera_oneMode (oscillate_oneMode hg)))

theorem reachable_oneMode {w : Startup} {g : Game} (h : Reachable w g) : OneMode g := by
  induction h with
  | init => simp [OneMode, initial]
  | key k a _ hk ih => exact keyboard_oneMode hk ih
  | camera _ ih => exact resolveCamera_oneMode ih
  | frame _ ih => exact frame_oneMode w ih

theorem activeModes_of_oneMode {g : Game} (hg : OneMode g) : activeModes g = 1 := by
  rcases hg with ⟨h1, h2, h3, h4⟩ | ⟨h1, h2, h3, h4⟩ | ⟨h1, h2, h3, h4⟩ | ⟨h1, h2, h3, h4⟩ <;>
    simp [activeModes, h1, h2, h3, h4]

/-! ## C1: camera-mode exclusivity -/

/-- C1.  In every state reachable from the initial state by key events,
camera-resolution steps and loop iterations, exactly one of `follow_flag`,
`top_fl`, `tower_fl`, `adv_fl` equals 1; and a RELEASE of T, P, A or F returns a
state in which the flag of the requested mode (tower, top, adventure, follow)
is 1 and the other three are 0. -/
theorem camera_mode_exclusive (w : Startup) (g : Game) (h : Reachable w g) :
    activeModes g = 1 ∧
    (∃ g1, keyboard GLFW_KEY_T GLFW_RELEASE g = some g1 ∧
      g1.tower_fl = 1 ∧ g1.top_fl = 0 ∧ g1.adv_fl = 0 ∧ g1.follow_flag = 0) ∧
    (∃ g1, keyboard GLFW_KEY_P GLFW_RELEASE g = some g1 ∧
      g1.top_fl = 1 ∧ g1.tower_fl = 0 ∧ g1.adv_fl = 0 ∧ g1.follow_flag = 0) ∧
    (∃ g1, keyboard GLFW_KEY_A GLFW_RELEASE g = some g1 ∧
      g1.adv_fl = 1 ∧ g1.tower_fl = 0 ∧ g1.top_fl = 0 ∧ g1.follow_flag = 0) ∧
    (∃ g1, keyboard GLFW_KEY_F GLFW_RELEASE g = some g1 ∧
      g1.follow_flag = 1 ∧ g1.tower_fl = 0 ∧ g1.top_fl = 0 ∧ g1.adv_fl = 0) := by
  refine ⟨activeModes_of_oneMode (reachable_oneMode h), ?_, ?_, ?_, ?_⟩ <;>
    exact ⟨_, rfl, rfl, rfl, rfl, rfl⟩


/-- C1 applied to the state after the first loop iteration. -/
theorem camera_mode_exclusive_witness :
    Reachable startup0 (frame startup0 initial) ∧ activeModes (frame startup0 initial) = 1 :=
  ⟨Reachable.frame Reachable.init,
    (camera_mode_exclusive startup0 _ (Reachable.frame Reachable.init)).1⟩



/-! ## The oscillation on the pair `(farsh_m_y, farsh_up_fl)` -/

theorem phase1_eq (c : ℚ) (p : ℚ × Int) :
    phase1 c p = if p.1 < 2 ∧ p.2 = 1 then (f32 (p.1 + c), p.2) else p := by
  unfold phase1
  simp only [Bool.and_eq_true, qlt_iff, decide_eq_true_eq]

theorem phase2_eq (p : ℚ × Int) :
    phase2 p = if p.1 ≥ 2 ∧ p.2 = 1 then (p.1, 0) else p := by
  unfold phase2
  simp only [Bool.and_eq_true, Bool.not_eq_true', qlt_false_iff, decide_eq_true_eq, ge_iff_le]

theorem phase3_eq (c : ℚ) (p : ℚ × Int) :
    phase3 c p = if p.1 > -4 ∧ p.2 = 0 then (f32 (p.1 - c), p.2) else p := by
  unfold phase3
  simp only [Bool.and_eq_true, qlt_iff, decide_eq_true_eq, gt_iff_lt]

theorem phase4_eq (p : ℚ × Int) :
    phase4 p = if p.1 ≤ -4 ∧ p.2 = 0 then (p.1, 1) else p := by
  unfold phase4
  simp only [Bool.and_eq_true, Bool.not_eq_true', qlt_false_iff, decide_eq_true_eq]

theorem oscillate1_phase (g : Game) :
    oscState (oscillate1 g) = phase1 (f32 (1/200)) (oscState g) := by
  rw [phase1_eq]
  unfold oscillate1 oscState
  split_ifs <;> rfl

theorem oscillate2_phase (g : Game) : oscState (oscillate2 g) = phase2 (oscState g) := by
  rw [phase2_eq]
  unfold oscillate2 oscState
  split_ifs <;> rfl

theorem oscillate3_phase (g : Game) :
    oscState (oscillate3 g) = phase3 (f32 (1/200)) (oscState g) := by
  rw [phase3_eq]
  unfold oscillate3 oscState
  split_ifs <;> rfl

theorem oscillate4_phase (g : Game) : oscState (oscillate4 g) = phase4 (oscState g) := by
  rw [phase4_eq]
  unfold oscillate4 oscState
  split_ifs <;> rfl

theorem oscillate_phase (g : Game) :
    oscState (oscillate g) = phaseStep (f32 (1/200)) (oscState g) := by
  unfold oscillate phaseStep
  rw [oscillate4_phase, oscillate3_phase, oscillate2_phase, oscillate1_phase]

theorem iterate_phase (g : Game) (n : ℕ) :
    oscState (oscillate^[n] g) = (phaseStep (f32 (1/200)))^[n] (oscState g) := by
  induction n with
  | zero => rfl
  | succ n ih =>
    rw [Function.iterate_succ_apply', Function.iterate_succ_apply', oscillate_phase, ih]

theorem phase2_fst (p : ℚ × Int) : (phase2 p).1 = p.1 := by
  rw [phase2_eq]
  split_ifs <;> rfl

theorem phase4_fst (p : ℚ × Int) : (phase4 p).1 = p.1 := by
  rw [phase4_eq]
  split_ifs <;> rfl

/-- What a successful run of `orbitCheck` says: the result is the pair after `n`
frames, and the test held at every frame. -/
theorem orbitCheck_spec (c : ℚ) (P : Nat → ℚ × Int → ℚ × Int → ℚ × Int → Bool) :
    ∀ (n : Nat) (p q : ℚ × Int), orbitCheck c P n p = some q →
      q = (phaseStep c)^[n] p ∧
      ∀ j, j < n →
        P (n - 1 - j) ((phaseStep c)^[j] p) (phase1 c ((phaseStep c)^[j] p))
          ((phaseStep c)^[j + 1] p) = true := by
  intro n
  induction n with
  | zero =>
    intro p q h
    rw [orbitCheck] at h
    cases h
    exact ⟨rfl, fun j hj => absurd hj (Nat.not_lt_zero j)⟩
  | succ n ih =>
    intro p q h
    rw [orbitCheck, forceP_eq, forceP_eq] at h
    by_cases hP : P n p (phase1 c p) (phase4 (phase3 c (phase2 (phase1 c p)))) = true
    · rw [if_pos hP] at h
      obtain ⟨hq, hall⟩ := ih _ _ h
      refine ⟨?_, ?_⟩
      · rw [Function.iterate_succ_apply]
        exact hq
      · intro j hj
        cases j with
        | zero => exact hP
        | succ j =>
          have := hall j (by omega)
          rw [Function.iterate_succ_apply, Function.iterate_succ_apply,
            show n + 1 - 1 - (j + 1) = n - 1 - j by omega]
          exact this
    · rw [if_neg hP] at h
      cases h

/-- What the per-frame test `orbitOk` says. -/
theorem orbitOk_spec {n : Nat} {p p1 p4 : ℚ × Int} (h : orbitOk n p p1 p4 = true) :
    (-4 ≤ p1.1 ∧ p1.1 ≤ overshoot ∧ -4 ≤ p4.1 ∧ p4.1 < 2) ∧
    (n ≠ 0 → p4 ≠ (-4, 1)) ∧
    (n = 1199 → p1.1 = overshoot ∧ p4.2 = 0) ∧
    (1200 ≤ n → p.1 < p4.1 ∧ p4.2 = 1) ∧
    (n < 1199 → p4.1 < p.1 ∧ (n ≠ 0 → p4.2 = 0)) := by
  unfold orbitOk at h
  simp only [Bool.and_eq_true, Bool.or_eq_true, Bool.not_eq_true', qlt_false_iff, qlt_iff,
    decide_eq_true_eq] at h
  obtain ⟨⟨⟨⟨⟨⟨⟨a1, a2⟩, a3⟩, a4⟩, b⟩, c⟩, d⟩, e⟩ := h
  refine ⟨⟨a1, a2, a3, a4⟩, ?_, ?_, ?_, ?_⟩
  · intro hn
    rcases b with b | b
    · exact absurd b hn
    · exact b
  · intro hn
    rw [if_pos hn] at c
    simpa using c
  · intro hn
    rw [if_pos hn] at d
    simpa [qlt_iff] using d
  · intro hn
    rw [if_pos hn] at e
    simp only [Bool.and_eq_true, Bool.or_eq_true, qlt_iff, decide_eq_true_eq] at e
    refine ⟨e.1, fun h0 => ?_⟩
    rcases e.2 with e2 | e2
    · exact absurd e2 h0
    · exact e2

set_option maxRecDepth 100000 in
/-- The 2399 frames from `(-4, rising)`, evaluated: every frame passes the test
`orbitOk` and the last one ends in `(-4, rising)`. -/
theorem orbit_checked :
    forceQ (f32 (1/200)) (fun c => orbitCheck c orbitOk 2399 (-4, 1)) = some (-4, 1) := by
  decide!

theorem orbit_closed : (phaseStep (f32 (1/200)))^[2399] (-4, 1) = (-4, 1) := by
  have h := orbit_checked
  rw [forceQ_eq] at h
  exact (orbitCheck_spec _ _ _ _ _ h).1.symm

theorem orbit_frame (j : ℕ) (hj : j < 2399) :
    orbitOk (2398 - j) ((phaseStep (f32 (1/200)))^[j] (-4, 1))
      (phase1 (f32 (1/200)) ((phaseStep (f32 (1/200)))^[j] (-4, 1)))
      ((phaseStep (f32 (1/200)))^[j + 1] (-4, 1)) = true := by
  have h := orbit_checked
  rw [forceQ_eq] at h
  exact (orbitCheck_spec _ _ _ _ _ h).2 j hj

theorem orbit_add_period (n : ℕ) :
    (phaseStep (f32 (1/200)))^[n + 2399] (-4, 1) = (phaseStep (f32 (1/200)))^[n] (-4, 1) := by
  rw [Function.iterate_add_apply, orbit_closed]

theorem orbit_mod (n : ℕ) :
    (phaseStep (f32 (1/200)))^[n] (-4, 1) = (phaseStep (f32 (1/200)))^[n % 2399] (-4, 1) := by
  induction n using Nat.strong_induction_on with
  | _ n ih =>
    by_cases hn : n < 2399
    · rw [Nat.mod_eq_of_lt hn]
    · obtain ⟨m, rfl⟩ : ∃ m, n = m + 2399 := ⟨n - 2399, by omega⟩
      rw [orbit_add_period, ih m (by omega), Nat.add_mod_right]

/-- After any number of frames the phase is in `[-4, 2)`. -/
theorem orbit_bounds (n : ℕ) :
    -4 ≤ ((phaseStep (f32 (1/200)))^[n] (-4, 1)).1 ∧
    ((phaseStep (f32 (1/200)))^[n] (-4, 1)).1 < 2 := by
  rw [orbit_mod n]
  have hr : n % 2399 < 2399 := Nat.mod_lt _ (by decide)
  generalize n % 2399 = r at hr
  cases r with
  | zero =>
    simp only [Function.iterate_zero, id_eq]
    norm_num
  | succ r =>
    obtain ⟨⟨-, -, h3, h4⟩, -⟩ := orbitOk_spec (orbit_frame r (by omega))
    exact ⟨h3, h4⟩

/-- After the first statement of any frame the phase is in `[-4, overshoot]`. -/
theorem orbit_bounds1 (n : ℕ) :
    -4 ≤ (phase1 (f32 (1/200)) ((phaseStep (f32 (1/200)))^[n] (-4, 1))).1 ∧
    (phase1 (f32 (1/200)) ((phaseStep (f32 (1/200)))^[n] (-4, 1))).1 ≤ overshoot := by
  rw [orbit_mod n]
  have hr : n % 2399 < 2399 := Nat.mod_lt _ (by decide)
  generalize n % 2399 = r at hr
  obtain ⟨⟨h1, h2, -, -⟩, -⟩ := orbitOk_spec (orbit_frame r hr)
  exact ⟨h1, h2⟩

theorem oscState_start {g : Game} (hy : g.farsh_m_y = -4) (hf : g.farsh_up_fl = 1) :
    oscState g = (-4, 1) := by
  unfold oscState
  rw [hy, hf]

theorem oscState_fst (g : Game) : (oscState g).1 = g.farsh_m_y := rfl

theorem oscState_snd (g : Game) : (oscState g).2 = g.farsh_up_fl := rfl

theorem overshoot_gt : (2 : ℚ) < overshoot := by
  unfold overshoot
  norm_num

/-! ## C2: oscillation boundedness -/

/-- C2, as stated, fails in binary32: in frame 1200 from the initial state the
first statement of the update leaves `farsh_m_y = 2.0000422`
(`8388785/4194304`), above `2.0`. -/
theorem oscillation_overshoots :
    (oscillate1 (oscillate^[1199] initial)).farsh_m_y = 8388785/4194304 ∧
    ¬ (oscillate1 (oscillate^[1199] initial)).farsh_m_y ≤ 2 := by
  have h : ∀ j, j = 1199 →
      (oscillate1 (oscillate^[j] initial)).farsh_m_y = overshoot := by
    intro j hj
    rw [← oscState_fst, oscillate1_phase, iterate_phase, oscState_start (g := initial) rfl rfl]
    exact ((orbitOk_spec (orbit_frame j (by omega))).2.2.1 (by omega)).1
  rw [h 1199 rfl]
  exact ⟨rfl, not_le.mpr overshoot_gt⟩

/-- C2, amended.  Starting from `farsh_m_y = -4` with `farsh_up_fl = 1` and
applying the per-frame oscillation update (binary32 arithmetic) any number `n`
of times, the phase lies in `[-4, 2]` after the `n`-th frame, and during the
next update it lies in `[-4, overshoot]`, `overshoot = 8388785/4194304`
(`2.0000422`), after each of the first three statements and in `[-4, 2]` after
the fourth. -/
theorem oscillation_bounded (g : Game) (hy : g.farsh_m_y = -4) (hf : g.farsh_up_fl = 1)
    (n : ℕ) :
    (-4 ≤ (oscillate^[n] g).farsh_m_y ∧ (oscillate^[n] g).farsh_m_y ≤ 2) ∧
    (-4 ≤ (oscillate1 (oscillate^[n] g)).farsh_m_y ∧
      (oscillate1 (oscillate^[n] g)).farsh_m_y ≤ overshoot) ∧
    (-4 ≤ (oscillate2 (oscillate1 (oscillate^[n] g))).farsh_m_y ∧
      (oscillate2 (oscillate1 (oscillate^[n] g))).farsh_m_y ≤ overshoot) ∧
    (-4 ≤ (oscillate3 (oscillate2 (oscillate1 (oscillate^[n] g)))).farsh_m_y ∧
      (oscillate3 (oscillate2 (oscillate1 (oscillate^[n] g)))).farsh_m_y ≤ overshoot) ∧
    (-4 ≤ (oscillate4 (oscillate3 (oscillate2 (oscillate1 (oscillate^[n] g))))).farsh_m_y ∧
      (oscillate4 (oscillate3 (oscillate2 (oscillate1 (oscillate^[n] g))))).farsh_m_y ≤ 2) := by
  have e0 : (oscillate^[n] g).farsh_m_y = ((phaseStep (f32 (1/200)))^[n] (-4, 1)).1 := by
    rw [← oscState_start hy hf, ← iterate_phase]
    rfl
  have e1 : (oscillate1 (oscillate^[n] g)).farsh_m_y =
      (phase1 (f32 (1/200)) ((phaseStep (f32 (1/200)))^[n] (-4, 1))).1 := by
    rw [← oscState_start hy hf, ← iterate_phase, ← oscillate1_phase]
    rfl
  have e2 : (oscillate2 (oscillate1 (oscillate^[n] g))).farsh_m_y =
      (oscillate1 (oscillate^[n] g)).farsh_m_y := by
    have := phase2_fst (oscState (oscillate1 (oscillate^[n] g)))
    rw [← oscillate2_phase] at this
    exact this
  have e4 : (oscillate4 (oscillate3 (oscillate2 (oscillate1 (oscillate^[n] g))))).farsh_m_y =
      ((phaseStep (f32 (1/200)))^[n + 1] (-4, 1)).1 := by
    rw [← oscState_start hy hf, ← iterate_phase, Function.iterate_succ_apply']
    rfl
  have e3 : (oscillate3 (oscillate2 (oscillate1 (oscillate^[n] g)))).farsh_m_y =
      (oscillate4 (oscillate3 (oscillate2 (oscillate1 (oscillate^[n] g))))).farsh_m_y := by
    have := phase4_fst (oscState (oscillate3 (oscillate2 (oscillate1 (oscillate^[n] g)))))
    rw [← oscillate4_phase] at this
    exact this.symm
  have b0 := orbit_bounds n
  have b1 := orbit_bounds1 n
  have b4 := orbit_bounds (n + 1)
  have hov := overshoot_gt
  rw [e3, e2, e4, e1, e0]
  exact ⟨⟨b0.1, le_of_lt b0.2⟩, b1, b1, ⟨b4.1, by linarith [b4.2]⟩, ⟨b4.1, le_of_lt b4.2⟩⟩

/-- C2 amended, applied to the initial state, at frame 1200 (the frame that
overshoots). -/
theorem oscillation_bounded_witness :
    (initial.farsh_m_y = -4 ∧ initial.farsh_up_fl = 1) ∧
    (-4 ≤ (oscillate1 (oscillate^[1199] initial)).farsh_m_y ∧
      (oscillate1 (oscillate^[1199] initial)).farsh_m_y ≤ overshoot) :=
  ⟨⟨rfl, rfl⟩, (oscillation_bounded initial rfl rfl 1199).2.1⟩

/-! ## C3: oscillation period -/

/-- No exact phase: 200 frames after the start the phase is
`-393213/131072 = -2.9999771`, not `-3`. -/
theorem phase_after_200 :
    oscState (oscillate^[200] initial) = (-393213/131072, 1) := by
  have h : forceQ (f32 (1/200)) (fun c => orbitCheck c (fun _ _ _ _ => true) 200 (-4, 1)) =
      some (-393213/131072, 1) := by decide!
  rw [forceQ_eq] at h
  rw [iterate_phase, oscState_start (g := initial) rfl rfl]
  exact ((orbitCheck_spec _ _ _ _ _ h).1).symm

/-- C3, as stated, fails at `n = 0`: 2400 frames after the start the state is
the state after one frame, with phase `-4 + 0.005f = -3.9949999`
(`-4189061/1048576`), not the starting state. -/
theorem oscillation_period_2400_fails :
    oscState (oscillate^[0 + 2400] initial) ≠ oscState (oscillate^[0] initial) ∧
    (oscillate^[0 + 2400] initial).farsh_m_y = -4189061/1048576 := by
  have h1 : oscState (oscillate^[0 + 2400] initial) =
      (phaseStep (f32 (1/200)))^[1] (-4, 1) := by
    rw [iterate_phase, oscState_start (g := initial) rfl rfl,
      show 0 + 2400 = 1 + 2399 from rfl, orbit_add_period]
  have h2 : (phaseStep (f32 (1/200)))^[1] (-4, 1) = (-4189061/1048576, 1) := by decide!
  constructor
  · rw [h1, h2]
    simp only [Function.iterate_zero, id_eq, oscState, initial]
    norm_num
  · rw [← oscState_fst, h1, h2]

/-- C3, amended.  From `(-4, rising)` the oscillation states are periodic with
period 2399 frames: the state after `n + 2399` frames equals the state after `n`
frames, and no smaller positive number of frames has this property.  Within a
period the phase rises strictly during the first 1199 frames (flag 1), frame
1200 turns the flag to 0, and the phase falls strictly during frames
`1201..2399`. -/
theorem oscillation_period (g : Game) (hy : g.farsh_m_y = -4) (hf : g.farsh_up_fl = 1) :
    (∀ n : ℕ, oscState (oscillate^[n + 2399] g) = oscState (oscillate^[n] g)) ∧
    (∀ p : ℕ, 0 < p → p < 2399 →
      ¬ ∀ n : ℕ, oscState (oscillate^[n + p] g) = oscState (oscillate^[n] g)) ∧
    (∀ k : ℕ, k < 1199 →
      (oscillate^[k] g).farsh_m_y < (oscillate^[k + 1] g).farsh_m_y ∧
      (oscillate^[k + 1] g).farsh_up_fl = 1) ∧
    (oscillate^[1200] g).farsh_up_fl = 0 ∧
    (∀ k : ℕ, 1200 ≤ k → k < 2399 →
      (oscillate^[k + 1] g).farsh_m_y < (oscillate^[k] g).farsh_m_y) := by
  have hs : ∀ n, oscState (oscillate^[n] g) = (phaseStep (f32 (1/200)))^[n] (-4, 1) := by
    intro n
    rw [iterate_phase, oscState_start hy hf]
  have hy' : ∀ n, (oscillate^[n] g).farsh_m_y = ((phaseStep (f32 (1/200)))^[n] (-4, 1)).1 :=
    fun n => congrArg Prod.fst (hs n)
  have hf' : ∀ n, (oscillate^[n] g).farsh_up_fl = ((phaseStep (f32 (1/200)))^[n] (-4, 1)).2 :=
    fun n => congrArg Prod.snd (hs n)
  refine ⟨?_, ?_, ?_, ?_, ?_⟩
  · intro n
    rw [hs, hs, orbit_add_period]
  · intro p hp0 hp hall
    have h0 := hall 0
    rw [Nat.zero_add, hs, hs, Function.iterate_zero, id_eq] at h0
    obtain ⟨q, rfl⟩ : ∃ q, p = q + 1 := ⟨p - 1, by omega⟩
    exact (orbitOk_spec (orbit_frame q (by omega))).2.1 (by omega) h0
  · intro k hk
    rw [hy', hy', hf']
    exact (orbitOk_spec (orbit_frame k (by omega))).2.2.2.1 (by omega)
  · have h : ∀ j, j = 1199 → (oscillate^[j + 1] g).farsh_up_fl = 0 := by
      intro j hj
      rw [hf']
      exact ((orbitOk_spec (orbit_frame j (by omega))).2.2.1 (by omega)).2
    exact h 1199 rfl
  · intro k hk1 hk2
    rw [hy', hy']
    exact ((orbitOk_spec (orbit_frame k hk2)).2.2.2.2 (by omega)).1

/-- C3 amended, applied to the initial state. -/
theorem oscillation_period_witness :
    (initial.farsh_m_y = -4 ∧ initial.farsh_up_fl = 1) ∧
    oscState (oscillate^[1 + 2399] initial) = oscState (oscillate^[1] initial) :=
  ⟨⟨rfl, rfl⟩, (oscillation_period initial rfl rfl).1 1⟩

/-! ## The player part of the state through a frame -/

theorem oscillate_player (g : Game) : playerOf (oscillate g) = playerOf g := by
  obtain ⟨y, f, h⟩ := oscillate_eq g
  rw [h]; rfl

theorem resolveFollow_player (g : Game) : playerOf (resolveFollow g) = playerOf g := by
  unfold resolveFollow
  split_ifs <;> rfl

theorem resolveAdv_player (g : Game) : playerOf (resolveAdv g) = playerOf g := by
  unfold resolveAdv
  split_ifs
  · obtain ⟨a, b, c, h⟩ := enableAdvcam_eq g
    rw [h]; rfl
  · rfl

theorem resolveTop_player (g : Game) : playerOf (resolveTop g) = playerOf g := by
  unfold resolveTop
  split_ifs <;> rfl

theorem resolveTower_player (g : Game) : playerOf (resolveTower g) = playerOf g := by
  unfold resolveTower
  split_ifs <;> rfl

theorem resolveCamera_player (g : Game) : playerOf (resolveCamera g) = playerOf g := by
  unfold resolveCamera
  rw [resolveTower_player, resolveTop_player, resolveAdv_player, resolveFollow_player]

theorem playerOf_x {g g1 : Game} (h : playerOf g1 = playerOf g) : g1.x_cuboid = g.x_cuboid :=
  congrArg (fun p => p.1) h

theorem playerOf_y {g g1 : Game} (h : playerOf g1 = playerOf g) : g1.y_cuboid = g.y_cuboid :=
  congrArg (fun p => p.2.1) h

theorem playerOf_z {g g1 : Game} (h : playerOf g1 = playerOf g) : g1.z_cuboid = g.z_cuboid :=
  congrArg (fun p => p.2.2.1) h

theorem playerOf_jump {g g1 : Game} (h : playerOf g1 = playerOf g) : g1.jump_fl = g.jump_fl :=
  congrArg (fun p => p.2.2.2.2.2.2.2.1) h

/-- When `checkIfObs` returns true. -/
theorem checkIfObs_eq_true (x_obs z_obs : ℚ) (g : Game) :
    checkIfObs x_obs z_obs g = true ↔
      (x_obs < g.x_cuboid ∧ g.x_cuboid < x_obs + 1 ∧
        z_obs < g.z_cuboid ∧ g.z_cuboid < z_obs + 1) := by
  unfold checkIfObs
  split_ifs with h
  · simpa using h
  · simpa using h

theorem checkIfObs_congr (a b : ℚ) {g g1 : Game} (hx : g1.x_cuboid = g.x_cuboid)
    (hz : g1.z_cuboid = g.z_cuboid) : checkIfObs a b g1 = checkIfObs a b g := by
  unfold checkIfObs
  rw [hx, hz]

theorem boundaryCheck_inBox (w : Startup) (g : Game) (h : InBox g) : boundaryCheck w g = g := by
  obtain ⟨h1, h2, h3, h4⟩ := h
  unfold boundaryCheck
  split_ifs with ha hb
  · exfalso
    rcases hb with hb | hb | hb | hb <;> linarith
  · rfl
  · rfl

/-- A frame that starts inside the box and at a position where no cell test
fires is oscillation followed by camera resolution: the player is not moved. -/
theorem frame_no_reset (w : Startup) (g : Game) (hb : InBox g)
    (ho : ∀ i k, checkIfObs (w.x i) (w.z k) g = false) :
    frame w g = resolveCamera (oscillate g) := by
  have hp : playerOf (resolveCamera (oscillate g)) = playerOf g := by
    rw [resolveCamera_player, oscillate_player]
  have hx := playerOf_x hp
  have hz := playerOf_z hp
  have hb1 : InBox (resolveCamera (oscillate g)) := by
    unfold InBox
    rw [hx, hz]
    exact hb
  unfold frame
  rw [boundaryCheck_inBox w _ hb1]
  apply floorLoop_fixed
  intro i k
  rw [checkIfObs_congr _ _ hx hz]
  exact ho i k

theorem frame_player_of_no_reset (w : Startup) (g : Game) (hb : InBox g)
    (ho : ∀ i k, checkIfObs (w.x i) (w.z k) g = false) :
    playerOf (frame w g) = playerOf g := by
  rw [frame_no_reset w g hb ho, resolveCamera_player, oscillate_player]

/-! ## Runs and key events -/

theorem run_tick (w : Startup) (es : List Event) (g : Game) :
    run w (Event.tick :: es) g = run w es (frame w g) := rfl

theorem run_key (w : Startup) (es : List Event) {k a : Int} {g g1 : Game}
    (h : keyboard k a g = some g1) :
    run w (Event.key k a :: es) g = run w es g1 := by
  show (keyboard k a g).bind (run w es) = run w es g1
  rw [h]
  rfl

theorem run_nil (w : Startup) (g : Game) : run w [] g = some g := rfl

theorem keyboard_up_release (g : Game) :
    keyboard GLFW_KEY_UP GLFW_RELEASE g =
      some { g with z_cuboid := f32 (g.z_cuboid - f32 (1/5)),
                    up_fl := 1, down_fl := 0, right_fl := 0, left_fl := 0 } := rfl

theorem keyboard_down_release (g : Game) :
    keyboard GLFW_KEY_DOWN GLFW_RELEASE g =
      some { g with z_cuboid := f32 (g.z_cuboid + f32 (1/5)),
                    up_fl := 0, down_fl := 1, right_fl := 0, left_fl := 0 } := rfl

theorem keyboard_right_release (g : Game) :
    keyboard GLFW_KEY_RIGHT GLFW_RELEASE g =
      some { g with x_cuboid := f32 (g.x_cuboid + f32 (1/5)),
                    up_fl := 0, down_fl := 0, right_fl := 1, left_fl := 0 } := rfl

theorem keyboard_left_release (g : Game) :
    keyboard GLFW_KEY_LEFT GLFW_RELEASE g =
      some { g with up_fl := 0, down_fl := 0, right_fl := 0, left_fl := 1,
                    x_cuboid := f32 (g.x_cuboid - f32 (1/5)) } := rfl

/-! ## Held keys -/

theorem held_succ (k : Int) (n : Nat) :
    held k (n + 1) = Event.key k GLFW_REPEAT :: held k n := rfl

/-- UP held for `n` REPEAT events: `z` goes through `n` rounded subtractions of
`0.2f`, nothing else is written. -/
theorem run_held_up (w : Startup) (n : Nat) (es : List Event) :
    ∀ g : Game, run w (held GLFW_KEY_UP n ++ es) g =
      run w es { g with z_cuboid := (fun z => f32 (z - f32 (1/5)))^[n] g.z_cuboid } := by
  induction n with
  | zero => intro g; rfl
  | succ n ih =>
    intro g
    have hk : keyboard GLFW_KEY_UP GLFW_REPEAT g =
        some { g with z_cuboid := f32 (g.z_cuboid - f32 (1/5)) } := rfl
    rw [held_succ, List.cons_append, run_key _ _ hk, ih, Function.iterate_succ_apply]

/-- RIGHT held for `n` REPEAT events. -/
theorem run_held_right (w : Startup) (n : Nat) (es : List Event) :
    ∀ g : Game, run w (held GLFW_KEY_RIGHT n ++ es) g =
      run w es { g with x_cuboid := (fun x => f32 (x + f32 (1/5)))^[n] g.x_cuboid } := by
  induction n with
  | zero => intro g; rfl
  | succ n ih =>
    intro g
    have hk : keyboard GLFW_KEY_RIGHT GLFW_REPEAT g =
        some { g with x_cuboid := f32 (g.x_cuboid + f32 (1/5)) } := rfl
    rw [held_succ, List.cons_append, run_key _ _ hk, ih, Function.iterate_succ_apply]

/-- The position and `jump_fl` after UP was held for `n` REPEAT events. -/
theorem run_held_up_pos (w : Startup) (n : Nat) (es : List Event) (g : Game) :
    ∃ g1, run w (held GLFW_KEY_UP n ++ es) g = run w es g1 ∧
      g1.x_cuboid = g.x_cuboid ∧ g1.y_cuboid = g.y_cuboid ∧
      g1.z_cuboid = (fun z => f32 (z - f32 (1/5)))^[n] g.z_cuboid ∧ g1.jump_fl = g.jump_fl :=
  ⟨_, run_held_up w n es g, rfl, rfl, rfl, rfl⟩

theorem run_held_right_pos (w : Startup) (n : Nat) (es : List Event) (g : Game) :
    ∃ g1, run w (held GLFW_KEY_RIGHT n ++ es) g = run w es g1 ∧
      g1.x_cuboid = (fun x => f32 (x + f32 (1/5)))^[n] g.x_cuboid ∧
      g1.y_cuboid = g.y_cuboid ∧ g1.z_cuboid = g.z_cuboid ∧ g1.jump_fl = g.jump_fl :=
  ⟨_, run_held_right w n es g, rfl, rfl, rfl, rfl⟩

/-- On a row with a whole-number `z` no cell test fires, whatever the integer
arrays hold: `z[k] < z < z[k] + 1` has no integer solution. -/
theorem checkIfObs_int_row (a b : Int) (g : Game) (n : Int) (hz : g.z_cuboid = n) :
    checkIfObs (a : ℚ) (b : ℚ) g = false := by
  unfold checkIfObs
  rw [if_neg]
  rintro ⟨-, -, h3, h4⟩
  rw [hz] at h3 h4
  have h5 : b < n := by exact_mod_cast h3
  have h6 : n < b + 1 := by exact_mod_cast h4
  omega

/-- The first loop iteration leaves the player at the spawn point, whatever the
startup values. -/
theorem first_frame_player (w : Startup) : playerOf (frame w initial) = playerOf initial := by
  apply frame_player_of_no_reset
  · unfold InBox initial
    norm_num
  · intro i k
    exact checkIfObs_int_row _ _ initial 19 rfl

/-! ## Walks in steps of `0.2f` -/

/-- Six steps up from `z = 19`, and one step right from `x = 0`. -/
theorem walk_short :
    (fun z => f32 (z - f32 (1/5)))^[6] 19 = 2333081/131072 ∧
    (fun x => f32 (x + f32 (1/5)))^[1] 0 = 13421773/67108864 := by
  have h1 : forceQ (f32 (1/5)) (fun c => iterF (fun z => f32 (z - c)) 6 19) =
      2333081/131072 := by decide!
  have h2 : forceQ (f32 (1/5)) (fun c => iterF (fun z => f32 (z + c)) 1 0) =
      13421773/67108864 := by decide!
  rw [forceQ_eq, iterF_eq] at h1 h2
  exact ⟨h1, h2⟩

/-- Three steps up from `z = 19` end at `18.3999977`, the position of
`onObstacleEdge`; five steps down from `z = 19` end at `20.0000038`, beyond
`20`. -/
theorem walk_edges :
    (fun z => f32 (z - f32 (1/5)))^[3] 19 = onObstacleEdge.z_cuboid ∧
    (fun z => f32 (z + f32 (1/5)))^[5] 19 = 5242881/262144 ∧
    (20 : ℚ) < 5242881/262144 := by
  have h1 : forceQ (f32 (1/5)) (fun c => iterF (fun z => f32 (z - c)) 3 19) =
      4823449/262144 := by decide!
  have h2 : forceQ (f32 (1/5)) (fun c => iterF (fun z => f32 (z + c)) 5 19) =
      5242881/262144 := by decide!
  rw [forceQ_eq, iterF_eq] at h1 h2
  exact ⟨h1, h2, by norm_num⟩

/-- Fifteen steps up from `z = 19` end at `15.9999895`. -/
theorem walk_fifteen :
    (fun z => f32 (z - f32 (1/5)))^[15] 19 = 16777205/1048576 := by
  have h1 : forceQ (f32 (1/5)) (fun c => iterF (fun z => f32 (z - c)) 15 19) =
      16777205/1048576 := by decide!
  rw [forceQ_eq, iterF_eq] at h1
  exact h1

/-- C4 at a failing input.  Every drawn obstacle sits at `(obsx[o], obsz[o]) =
(0, 17)` and every entry of the arrays `x`, `z` is 5, whatever `in_air` and
`on_gr` are.  After the first loop iteration, one REPEAT event of RIGHT and six
of UP the player is at `(0.2, 0, 17.7999954)`, strictly inside the unit
footprint of the drawn obstacle; the next loop iteration tests the corners
`(x[i], z[k])`, never reads `obsx`, `obsz`, and leaves the player where it
is. -/
theorem frame_misses_drawn_obstacle (a b : Int) :
    (run (startupObs a b) obstacleEvents initial).map
      (fun g => (g.x_cuboid, g.y_cuboid, g.z_cuboid)) =
      some (13421773/67108864, 0, 2333081/131072) ∧
    (((startupObs a b).obsx 0 : ℚ) < 13421773/67108864 ∧
      (13421773/67108864 : ℚ) < ((startupObs a b).obsx 0 : ℚ) + 1 ∧
      ((startupObs a b).obsz 0 : ℚ) < 2333081/131072 ∧
      (2333081/131072 : ℚ) < ((startupObs a b).obsz 0 : ℚ) + 1) := by
  obtain ⟨g1, e1⟩ : ∃ g1, frame (startupObs a b) initial = g1 := ⟨_, rfl⟩
  have p1 := first_frame_player (startupObs a b)
  rw [e1] at p1
  obtain ⟨g2, r2, x2, y2, z2, -⟩ := run_held_right_pos (startupObs a b) 1
    (held GLFW_KEY_UP 6 ++ [Event.tick]) g1
  obtain ⟨g3, r3, x3, y3, z3, -⟩ := run_held_up_pos (startupObs a b) 6 [Event.tick] g2
  have hx3 : g3.x_cuboid = 13421773/67108864 := by
    rw [x3, x2, playerOf_x p1]
    exact walk_short.2
  have hy3 : g3.y_cuboid = 0 := by
    rw [y3, y2, playerOf_y p1]
    rfl
  have hz3 : g3.z_cuboid = 2333081/131072 := by
    rw [z3, z2, playerOf_z p1]
    exact walk_short.1
  have p4 : playerOf (frame (startupObs a b) g3) = playerOf g3 := by
    apply frame_player_of_no_reset
    · unfold InBox
      rw [hx3, hz3]
      norm_num
    · intro i k
      simp only [checkIfObs, startupObs, hx3, hz3]
      norm_num
  constructor
  · rw [obstacleEvents, run_tick, e1, r2, r3, run_tick, run_nil, Option.map_some',
      playerOf_x p4, playerOf_y p4, playerOf_z p4, hx3, hy3, hz3]
  · simp only [startupObs]
    norm_num

/-! ## C5: the obstacle hit-box -/

/-- C5, as stated, fails on the lower edges: at `(0, 0, 18.3999977)` the player is in
the half-open footprint `[0, 1) x [18, 19)` of the corner `(0, 18)` and
`checkIfObs(0, 18)` returns false. -/
theorem checkIfObs_misses_edge :
    ((0 : ℚ) ≤ onObstacleEdge.x_cuboid ∧ onObstacleEdge.x_cuboid < 0 + 1 ∧
      (18 : ℚ) ≤ onObstacleEdge.z_cuboid ∧ onObstacleEdge.z_cuboid < 18 + 1) ∧
    checkIfObs 0 18 onObstacleEdge = false := by
  simp only [checkIfObs, onObstacleEdge, initial]
  norm_num

/-- C5, amended.  `checkIfObs(ox, oz)` returns true exactly when the player's
`(x, z)` lies in the open unit square `ox < x < ox + 1`, `oz < z < oz + 1`. -/
theorem obstacle_hitbox_open (x_obs z_obs : ℚ) (g : Game) :
    checkIfObs x_obs z_obs g = true ↔
      (x_obs < g.x_cuboid ∧ g.x_cuboid < x_obs + 1 ∧
        z_obs < g.z_cuboid ∧ g.z_cuboid < z_obs + 1) :=
  checkIfObs_eq_true x_obs z_obs g

/-! ## C6: the bounds invariant -/

/-- The result of `enableAdvcam` when the player faces right: `z_target` is not
written. -/
theorem enableAdvcam_right (g : Game) (hr : g.right_fl = 1) (hl : g.left_fl ≠ 1)
    (hu : g.up_fl ≠ 1) (hd : g.down_fl ≠ 1) :
    enableAdvcam g =
      { g with
        x_cam := f32 (g.x_cuboid + 1/2), y_cam := f32 (g.y_cuboid + 3/2),
        z_cam := f32 (g.z_cuboid + 1/2),
        x_axis := 0, y_axis := 1, z_axis := 0,
        x_target := 20, y_target := g.y_cuboid,
        follow_flag := 0, top_fl := 0, tower_fl := 0, heli_fl := 0 } := by
  have e1 : advRight { g with
        x_cam := f32 (g.x_cuboid + 1/2), y_cam := f32 (g.y_cuboid + 3/2),
        z_cam := f32 (g.z_cuboid + 1/2),
        x_axis := 0, y_axis := 1, z_axis := 0 } =
      { g with
        x_cam := f32 (g.x_cuboid + 1/2), y_cam := f32 (g.y_cuboid + 3/2),
        z_cam := f32 (g.z_cuboid + 1/2),
        x_axis := 0, y_axis := 1, z_axis := 0, x_target := 20, y_target := g.y_cuboid } := by
    unfold advRight
    rw [if_pos hr]
  have e2 : advLeft { g with
        x_cam := f32 (g.x_cuboid + 1/2), y_cam := f32 (g.y_cuboid + 3/2),
        z_cam := f32 (g.z_cuboid + 1/2),
        x_axis := 0, y_axis := 1, z_axis := 0, x_target := 20, y_target := g.y_cuboid } =
      { g with
        x_cam := f32 (g.x_cuboid + 1/2), y_cam := f32 (g.y_cuboid + 3/2),
        z_cam := f32 (g.z_cuboid + 1/2),
        x_axis := 0, y_axis := 1, z_axis := 0, x_target := 20, y_target := g.y_cuboid } := by
    unfold advLeft
    rw [if_neg hl]
  have e3 : advUp { g with
        x_cam := f32 (g.x_cuboid + 1/2), y_cam := f32 (g.y_cuboid + 3/2),
        z_cam := f32 (g.z_cuboid + 1/2),
        x_axis := 0, y_axis := 1, z_axis := 0, x_target := 20, y_target := g.y_cuboid } =
      { g with
        x_cam := f32 (g.x_cuboid + 1/2), y_cam := f32 (g.y_cuboid + 3/2),
        z_cam := f32 (g.z_cuboid + 1/2),
        x_axis := 0, y_axis := 1, z_axis := 0, x_target := 20, y_target := g.y_cuboid } := by
    unfold advUp
    rw [if_neg hu]
  have e4 : advDown { g with
        x_cam := f32 (g.x_cuboid + 1/2), y_cam := f32 (g.y_cuboid + 3/2),
        z_cam := f32 (g.z_cuboid + 1/2),
        x_axis := 0, y_axis := 1, z_axis := 0, x_target := 20, y_target := g.y_cuboid } =
      { g with
        x_cam := f32 (g.x_cuboid + 1/2), y_cam := f32 (g.y_cuboid + 3/2),
        z_cam := f32 (g.z_cuboid + 1/2),
        x_axis := 0, y_axis := 1, z_axis := 0, x_target := 20, y_target := g.y_cuboid } := by
    unfold advDown
    rw [if_neg hd]
  unfold enableAdvcam
  simp only []
  rw [e1, e2, e3, e4]

/-- The result of `enableAdvcam` when the player faces up. -/
theorem enableAdvcam_up (g : Game) (hr : g.right_fl ≠ 1) (hl : g.left_fl ≠ 1)
    (hu : g.up_fl = 1) (hd : g.down_fl ≠ 1) :
    enableAdvcam g =
      { g with
        x_cam := f32 (g.x_cuboid + 1/2), y_cam := f32 (g.y_cuboid + 3/2),
        z_cam := f32 (g.z_cuboid + 1/2),
        x_axis := 0, y_axis := 1, z_axis := 0,
        x_target := g.x_cuboid, y_target := g.y_cuboid, z_target := 0,
        follow_flag := 0, top_fl := 0, tower_fl := 0, heli_fl := 0 } := by
  have e1 : advRight { g with
        x_cam := f32 (g.x_cuboid + 1/2), y_cam := f32 (g.y_cuboid + 3/2),
        z_cam := f32 (g.z_cuboid + 1/2),
        x_axis := 0, y_axis := 1, z_axis := 0 } =
      { g with
        x_cam := f32 (g.x_cuboid + 1/2), y_cam := f32 (g.y_cuboid + 3/2),
        z_cam := f32 (g.z_cuboid + 1/2),
        x_axis := 0, y_axis := 1, z_axis := 0 } := by
    unfold advRight
    rw [if_neg hr]
  have e2 : advLeft { g with
        x_cam := f32 (g.x_cuboid + 1/2), y_cam := f32 (g.y_cuboid + 3/2),
        z_cam := f32 (g.z_cuboid + 1/2),
        x_axis := 0, y_axis := 1, z_axis := 0 } =
      { g with
        x_cam := f32 (g.x_cuboid + 1/2), y_cam := f32 (g.y_cuboid + 3/2),
        z_cam := f32 (g.z_cuboid + 1/2),
        x_axis := 0, y_axis := 1, z_axis := 0 } := by
    unfold advLeft
    rw [if_neg hl]
  have e3 : advUp { g with
        x_cam := f32 (g.x_cuboid + 1/2), y_cam := f32 (g.y_cuboid + 3/2),
        z_cam := f32 (g.z_cuboid + 1/2),
        x_axis := 0, y_axis := 1, z_axis := 0 } =
      { g with
        x_cam := f32 (g.x_cuboid + 1/2), y_cam := f32 (g.y_cuboid + 3/2),
        z_cam := f32 (g.z_cuboid + 1/2),
        x_axis := 0, y_axis := 1, z_axis := 0,
        x_target := g.x_cuboid, y_target := g.y_cuboid, z_target := 0 } := by
    unfold advUp
    rw [if_pos hu]
  have e4 : advDown { g with
        x_cam := f32 (g.x_cuboid + 1/2), y_cam := f32 (g.y_cuboid + 3/2),
        z_cam := f32 (g.z_cuboid + 1/2),
        x_axis := 0, y_axis := 1, z_axis := 0,
        x_target := g.x_cuboid, y_target := g.y_cuboid, z_target := 0 } =
      { g with
        x_cam := f32 (g.x_cuboid + 1/2), y_cam := f32 (g.y_cuboid + 3/2),
        z_cam := f32 (g.z_cuboid + 1/2),
        x_axis := 0, y_axis := 1, z_axis := 0,
        x_target := g.x_cuboid, y_target := g.y_cuboid, z_target := 0 } := by
    unfold advDown
    rw [if_neg hd]
  unfold enableAdvcam
  simp only []
  rw [e1, e2, e3, e4]

/-- In follow mode the camera dispatch is `enableFollowcam`. -/
theorem resolveCamera_follow (g : Game) (h1 : g.follow_flag = 1) (h2 : g.adv_fl = 0)
    (h3 : g.top_fl = 0) (h4 : g.tower_fl = 0) : resolveCamera g = enableFollowcam g := by
  have e1 : resolveFollow g = enableFollowcam g := by
    unfold resolveFollow
    rw [if_pos h1]
  have e2 : resolveAdv (enableFollowcam g) = enableFollowcam g := by
    unfold resolveAdv
    rw [if_neg (by show ¬ ((0 : Int) = 1); decide)]
    rfl
  have e3 : resolveTop (enableFollowcam g) = enableFollowcam g := by
    unfold resolveTop
    rw [if_neg (by show ¬ (g.top_fl = 1); rw [h3]; decide)]
    cases g
    simp only at h3
    subst h3
    rfl
  have e4 : resolveTower (enableFollowcam g) = enableFollowcam g := by
    unfold resolveTower
    rw [if_neg (by show ¬ ((0 : Int) = 1); decide)]
    rfl
  unfold resolveCamera
  rw [e1, e2, e3, e4]

/-- In adventure mode the camera dispatch is `enableAdvcam`. -/
theorem resolveCamera_adv (g : Game) (h1 : g.follow_flag = 0) (h2 : g.adv_fl = 1) :
    resolveCamera g = enableAdvcam g := by
  have e1 : resolveFollow g = g := by
    unfold resolveFollow
    rw [if_neg (by rw [h1]; decide)]
    cases g
    simp only at h1
    subst h1
    rfl
  have e2 : resolveAdv g = enableAdvcam g := by
    unfold resolveAdv
    rw [if_pos h2]
  obtain ⟨a, b, c, hadv⟩ := enableAdvcam_eq g
  have e3 : resolveTop (enableAdvcam g) = enableAdvcam g := by
    rw [hadv]
    unfold resolveTop
    rw [if_neg (by show ¬ ((0 : Int) = 1); decide)]
  have e4 : resolveTower (enableAdvcam g) = enableAdvcam g := by
    rw [hadv]
    unfold resolveTower
    rw [if_neg (by show ¬ ((0 : Int) = 1); decide)]
  unfold resolveCamera
  rw [e1, e2, e3, e4]

/-- In top mode the camera dispatch is `enableTopcam`. -/
theorem resolveCamera_top (g : Game) (h1 : g.follow_flag = 0) (h2 : g.adv_fl = 0)
    (h3 : g.top_fl = 1) : resolveCamera g = enableTopcam g := by
  have e1 : resolveFollow g = g := by
    unfold resolveFollow
    rw [if_neg (by rw [h1]; decide)]
    cases g
    simp only at h1
    subst h1
    rfl
  have e2 : resolveAdv g = g := by
    unfold resolveAdv
    rw [if_neg (by rw [h2]; decide)]
    cases g
    simp only at h2
    subst h2
    rfl
  have e3 : resolveTop g = enableTopcam g := by
    unfold resolveTop
    rw [if_pos h3]
  have e4 : resolveTower (enableTopcam g) = enableTopcam g := by
    unfold resolveTower
    rw [if_neg (by show ¬ ((0 : Int) = 1); decide)]
    rfl
  unfold resolveCamera
  rw [e1, e2, e3, e4]

/-! ## C7: the boundary reset -/

/-- The first five steps right from `x = 0`: `0.2f`, `0.4f`, `0.6000000238`,
`0.8000000119` and `1.0` exactly. -/
theorem walk_right :
    (fun x => f32 (x + f32 (1/5)))^[1] 0 = 13421773/67108864 ∧
    (fun x => f32 (x + f32 (1/5)))^[2] 0 = 13421773/33554432 ∧
    (fun x => f32 (x + f32 (1/5)))^[3] 0 = 5033165/8388608 ∧
    (fun x => f32 (x + f32 (1/5)))^[4] 0 = 13421773/16777216 ∧
    (fun x => f32 (x + f32 (1/5)))^[5] 0 = 1 := by
  have h1 : forceQ (f32 (1/5)) (fun c => iterF (fun x => f32 (x + c)) 1 0) =
      13421773/67108864 := by decide!
  have h2 : forceQ (f32 (1/5)) (fun c => iterF (fun x => f32 (x + c)) 2 0) =
      13421773/33554432 := by decide!
  have h3 : forceQ (f32 (1/5)) (fun c => iterF (fun x => f32 (x + c)) 3 0) =
      5033165/8388608 := by decide!
  have h4 : forceQ (f32 (1/5)) (fun c => iterF (fun x => f32 (x + c)) 4 0) =
      13421773/16777216 := by decide!
  have h5 : forceQ (f32 (1/5)) (fun c => iterF (fun x => f32 (x + c)) 5 0) =
      1 := by decide!
  rw [forceQ_eq, iterF_eq] at h1 h2 h3 h4 h5
  exact ⟨h1, h2, h3, h4, h5⟩

/-- The positions of `walk_right` lie between 0 and 1. -/
theorem walk_right_range (j : ℕ) (hj : j ≤ 5) :
    0 ≤ (fun x => f32 (x + f32 (1/5)))^[j] 0 ∧ (fun x => f32 (x + f32 (1/5)))^[j] 0 ≤ 1 ∧
    (0 < j → 0 < (fun x => f32 (x + f32 (1/5)))^[j] 0) := by
  obtain ⟨h1, h2, h3, h4, h5⟩ := walk_right
  interval_cases j
  · simp
  · rw [h1]; norm_num
  · rw [h2]; norm_num
  · rw [h3]; norm_num
  · rw [h4]; norm_num
  · rw [h5]; norm_num

theorem rightScenario_run (w : Startup) (fs : List Bool) :
    ∀ g : Game, g.z_cuboid = 19 →
      (∀ j, 1 ≤ j → j ≤ fs.length →
        -1 ≤ (fun x => f32 (x + f32 (1/5)))^[j] g.x_cuboid ∧
        (fun x => f32 (x + f32 (1/5)))^[j] g.x_cuboid ≤ 18) →
      ∃ g1, run w (rightScenario fs) g = some g1 ∧
        g1.x_cuboid = (fun x => f32 (x + f32 (1/5)))^[fs.length] g.x_cuboid ∧
        g1.y_cuboid = g.y_cuboid ∧ g1.z_cuboid = 19 ∧
        ((fs ≠ [] ∨ (g.right_fl = 1 ∧ g.up_fl = 0 ∧ g.down_fl = 0 ∧ g.left_fl = 0)) →
          g1.right_fl = 1 ∧ g1.up_fl = 0 ∧ g1.down_fl = 0 ∧ g1.left_fl = 0) := by
  induction fs with
  | nil =>
    intro g hz _
    refine ⟨g, rfl, rfl, rfl, hz, ?_⟩
    rintro (h | h)
    · exact absurd rfl h
    · exact h
  | cons b fs ih =>
    intro g hz hbox
    obtain ⟨g1, hk, x1, y1, z1, r1, u1, d1, l1⟩ :
        ∃ g1, keyboard GLFW_KEY_RIGHT GLFW_RELEASE g = some g1 ∧
          g1.x_cuboid = f32 (g.x_cuboid + f32 (1/5)) ∧ g1.y_cuboid = g.y_cuboid ∧
          g1.z_cuboid = g.z_cuboid ∧ g1.right_fl = 1 ∧ g1.up_fl = 0 ∧ g1.down_fl = 0 ∧
          g1.left_fl = 0 :=
      ⟨_, keyboard_right_release g, rfl, rfl, rfl, rfl, rfl, rfl, rfl⟩
    rw [hz] at z1
    have hb1 := hbox 1 (le_refl 1) (by simp)
    rw [Function.iterate_one] at hb1
    have hbox1 : ∀ j, 1 ≤ j → j ≤ fs.length →
        -1 ≤ (fun x => f32 (x + f32 (1/5)))^[j] g1.x_cuboid ∧
        (fun x => f32 (x + f32 (1/5)))^[j] g1.x_cuboid ≤ 18 := by
      intro j hj1 hj2
      have := hbox (j + 1) (by omega) (by simp; omega)
      rw [Function.iterate_succ_apply] at this
      rw [x1]
      exact this
    have hlen : (fun x => f32 (x + f32 (1/5)))^[(b :: fs).length] g.x_cuboid =
        (fun x => f32 (x + f32 (1/5)))^[fs.length] g1.x_cuboid := by
      rw [List.length_cons, Function.iterate_succ_apply, x1]
    have hp : playerOf (frame w g1) = playerOf g1 := by
      apply frame_player_of_no_reset
      · unfold InBox
        rw [x1, z1]
        exact ⟨hb1.1, hb1.2, by norm_num, by norm_num⟩
      · intro i k
        exact checkIfObs_int_row _ _ g1 19 (by rw [z1]; norm_num)
    cases b with
    | true =>
      have hx2 := playerOf_x hp
      have hy2 := playerOf_y hp
      have hz2 := playerOf_z hp
      have hfl : (frame w g1).right_fl = 1 ∧ (frame w g1).up_fl = 0 ∧
          (frame w g1).down_fl = 0 ∧ (frame w g1).left_fl = 0 := by
        have hr := congrArg (fun p => p.2.2.2.2.2.1) hp
        have hu := congrArg (fun p => p.2.2.2.1) hp
        have hd := congrArg (fun p => p.2.2.2.2.1) hp
        have hl := congrArg (fun p => p.2.2.2.2.2.2.1) hp
        simp only [playerOf] at hr hu hd hl
        rw [hr, hu, hd, hl]
        exact ⟨r1, u1, d1, l1⟩
      obtain ⟨g3, hrun, x3, y3, z3, f3⟩ := ih (frame w g1) (by rw [hz2, z1])
        (by rw [hx2]; exact hbox1)
      refine ⟨g3, ?_, ?_, ?_, z3, fun _ => f3 (Or.inr hfl)⟩
      · show run w (Event.key GLFW_KEY_RIGHT GLFW_RELEASE :: Event.tick :: rightScenario fs) g
          = some g3
        rw [run_key _ _ hk, run_tick, hrun]
      · rw [x3, hx2, hlen]
      · rw [y3, hy2, y1]
    | false =>
      obtain ⟨g3, hrun, x3, y3, z3, f3⟩ := ih g1 z1 hbox1
      refine ⟨g3, ?_, ?_, ?_, z3, fun _ => f3 (Or.inr ⟨r1, u1, d1, l1⟩)⟩
      · show run w (Event.key GLFW_KEY_RIGHT GLFW_RELEASE :: rightScenario fs) g = some g3
        rw [run_key _ _ hk, hrun]
      · rw [x3, hlen]
      · rw [y3, y1]

/-- C8.  From any state at the spawn position `(0, y0, 19)`, for any startup
arrays and any values of `in_air`, `on_gr`: after `j <= 5` RELEASE events of
RIGHT, each optionally followed by a loop iteration (`fs` says which), the
program is still running, the player is at `(x_j, y0, 19)`, where `x_j` is the
result of `j` binary32 additions of `0.2f` to 0 (`x_1 = 0.2f`, `x_2 = 0.4f`,
`x_3 = 0.6000000238`, `x_4 = 0.8000000119`, `x_5 = 1`; positive for `j >= 1`, so
no reset to the spawn point has happened), a further loop iteration would not
move it, and for `j >= 1` the facing flags are `right_fl = 1`,
`up_fl = down_fl = left_fl = 0`; for `j = 5` this gives `x = 1` exactly. -/
theorem five_right_steps (w : Startup) (g : Game) (hx : g.x_cuboid = 0)
    (hz : g.z_cuboid = 19) (fs : List Bool) (hlen : fs.length ≤ 5) :
    ∃ g1, run w (rightScenario fs) g = some g1 ∧
      g1.x_cuboid = (fun x => f32 (x + f32 (1/5)))^[fs.length] 0 ∧
      some g1.x_cuboid =
        [0, 13421773/67108864, 13421773/33554432, 5033165/8388608, 13421773/16777216,
          1].get? fs.length ∧
      (fs ≠ [] → 0 < g1.x_cuboid) ∧
      g1.y_cuboid = g.y_cuboid ∧ g1.z_cuboid = 19 ∧
      playerOf (frame w g1) = playerOf g1 ∧
      (fs ≠ [] → g1.right_fl = 1 ∧ g1.up_fl = 0 ∧ g1.down_fl = 0 ∧ g1.left_fl = 0) ∧
      (fs.length = 5 → g1.x_cuboid = 1) := by
  obtain ⟨g1, hrun, x1, y1, z1, f1⟩ := rightScenario_run w fs g hz
    (by
      intro j _ hj2
      rw [hx]
      have := walk_right_range j (by omega)
      exact ⟨by linarith [this.1], by linarith [this.2.1]⟩)
  rw [hx] at x1
  have hr := walk_right_range fs.length hlen
  obtain ⟨h1, h2, h3, h4, h5⟩ := walk_right
  refine ⟨g1, hrun, x1, ?_, ?_, y1, z1, ?_, fun h => f1 (Or.inl h), ?_⟩
  · rw [x1]
    generalize fs.length = n at hlen
    interval_cases n
    · rfl
    · rw [h1]; rfl
    · rw [h2]; rfl
    · rw [h3]; rfl
    · rw [h4]; rfl
    · rw [h5]; rfl
  · intro hne
    rw [x1]
    exact hr.2.2 (List.length_pos.mpr hne)
  · apply frame_player_of_no_reset
    · unfold InBox
      rw [x1, z1]
      exact ⟨by linarith [hr.1], by linarith [hr.2.1], by norm_num, by norm_num⟩
    · intro i k
      exact checkIfObs_int_row _ _ g1 19 (by rw [z1]; norm_num)
  · intro h5'
    rw [x1, h5']
    exact h5

/-- C8 applied to the initial state, with a loop iteration after every event. -/
theorem five_right_steps_witness :
    (initial.x_cuboid = 0 ∧ initial.z_cuboid = 19 ∧
      [true, true, true, true, true].length ≤ 5) ∧
    ∃ g1, run startup0 (rightScenario [true, true, true, true, true]) initial = some g1 ∧
      g1.x_cuboid = 1 ∧ g1.y_cuboid = 0 ∧ g1.z_cuboid = 19 ∧ g1.right_fl = 1 := by
  refine ⟨⟨rfl, rfl, by decide⟩, ?_⟩
  obtain ⟨g1, hrun, -, -, -, y1, z1, -, f1, h5⟩ :=
    five_right_steps startup0 initial rfl rfl [true, true, true, true, true] (by decide)
  exact ⟨g1, hrun, h5 rfl, y1, z1, (f1 (by simp)).1⟩

/-! ## C9: movement intents -/

/-- The binary32 values of the first step right from `x = 0` and of the first
step down from `z = 19`. -/
theorem first_steps :
    f32 (0 + f32 (1/5)) = 13421773/67108864 ∧ f32 (19 + f32 (1/5)) = 5033165/262144 := by
  decide!

/-- C9, as stated, fails in binary32: a RELEASE of RIGHT in the initial state
moves `x` from 0 to `0.2f = 13421773/67108864`, which is not `0.2`; a RELEASE
of DOWN moves `z` from 19 to `5033165/262144`, a displacement of
`52429/262144 = 0.2000008`, different from the displacement along `x`: the
step is not one fixed number. -/
theorem step_not_fixed :
    (keyboard GLFW_KEY_RIGHT GLFW_RELEASE initial).map
      (fun g => g.x_cuboid - initial.x_cuboid) = some (13421773/67108864) ∧
    (13421773/67108864 : ℚ) ≠ 1/5 ∧
    (keyboard GLFW_KEY_DOWN GLFW_RELEASE initial).map
      (fun g => g.z_cuboid - initial.z_cuboid) = some (52429/262144) ∧
    (52429/262144 : ℚ) ≠ 1/5 ∧ (52429/262144 : ℚ) ≠ 13421773/67108864 := by
  obtain ⟨h1, h2⟩ := first_steps
  refine ⟨?_, by norm_num, ?_, by norm_num, by norm_num⟩
  · rw [keyboard_right_release, Option.map_some']
    show some (f32 (0 + f32 (1/5)) - 0) = _
    rw [h1]
    norm_num
  · rw [keyboard_down_release, Option.map_some']
    show some (f32 (19 + f32 (1/5)) - 19) = _
    rw [h2]
    norm_num

/-- C9, amended.  A RELEASE of a direction key replaces one coordinate by the
binary32 result of adding or subtracting `0.2f` (UP: `z - 0.2f`, DOWN:
`z + 0.2f`, RIGHT: `x + 0.2f`, LEFT: `x - 0.2f`, each rounded), sets that
direction's facing flag and clears the other three, and writes nothing else; a
REPEAT of a direction key makes the same move and writes nothing else. -/
theorem movement_intents (g : Game) :
    keyboard GLFW_KEY_UP GLFW_RELEASE g =
      some { g with z_cuboid := f32 (g.z_cuboid - f32 (1/5)),
                    up_fl := 1, down_fl := 0, right_fl := 0, left_fl := 0 } ∧
    keyboard GLFW_KEY_DOWN GLFW_RELEASE g =
      some { g with z_cuboid := f32 (g.z_cuboid + f32 (1/5)),
                    up_fl := 0, down_fl := 1, right_fl := 0, left_fl := 0 } ∧
    keyboard GLFW_KEY_RIGHT GLFW_RELEASE g =
      some { g with x_cuboid := f32 (g.x_cuboid + f32 (1/5)),
                    up_fl := 0, down_fl := 0, right_fl := 1, left_fl := 0 } ∧
    keyboard GLFW_KEY_LEFT GLFW_RELEASE g =
      some { g with x_cuboid := f32 (g.x_cuboid - f32 (1/5)),
                    up_fl := 0, down_fl := 0, right_fl := 0, left_fl := 1 } ∧
    keyboard GLFW_KEY_UP GLFW_REPEAT g =
      some { g with z_cuboid := f32 (g.z_cuboid - f32 (1/5)) } ∧
    keyboard GLFW_KEY_DOWN GLFW_REPEAT g =
      some { g with z_cuboid := f32 (g.z_cuboid + f32 (1/5)) } ∧
    keyboard GLFW_KEY_RIGHT GLFW_REPEAT g =
      some { g with x_cuboid := f32 (g.x_cuboid + f32 (1/5)) } ∧
    keyboard GLFW_KEY_LEFT GLFW_REPEAT g =
      some { g with x_cuboid := f32 (g.x_cuboid - f32 (1/5)) } :=
  ⟨rfl, rfl, rfl, rfl, rfl, rfl, rfl, rfl⟩

/-! ## The rising oscillation and the first loop iteration -/

/-- A frame in the rising half, away from the top. -/
theorem oscillate_rise (g : Game) (hf : g.farsh_up_fl = 1) (hy0 : g.farsh_m_y < 2)
    (hy : f32 (g.farsh_m_y + f32 (1/200)) < 2) :
    oscillate g = { g with farsh_m_y := f32 (g.farsh_m_y + f32 (1/200)) } := by
  have e1 : oscillate1 g = { g with farsh_m_y := f32 (g.farsh_m_y + f32 (1/200)) } := by
    unfold oscillate1
    rw [if_pos ⟨hy0, hf⟩]
  have e2 : oscillate2 { g with farsh_m_y := f32 (g.farsh_m_y + f32 (1/200)) } =
      { g with farsh_m_y := f32 (g.farsh_m_y + f32 (1/200)) } := by
    unfold oscillate2
    rw [if_neg]
    rintro ⟨h, -⟩
    simp only at h
    linarith
  have e3 : oscillate3 { g with farsh_m_y := f32 (g.farsh_m_y + f32 (1/200)) } =
      { g with farsh_m_y := f32 (g.farsh_m_y + f32 (1/200)) } := by
    unfold oscillate3
    rw [if_neg]
    rintro ⟨-, h⟩
    simp only [hf] at h
    omega
  have e4 : oscillate4 { g with farsh_m_y := f32 (g.farsh_m_y + f32 (1/200)) } =
      { g with farsh_m_y := f32 (g.farsh_m_y + f32 (1/200)) } := by
    unfold oscillate4
    rw [if_neg]
    rintro ⟨-, h⟩
    simp only [hf] at h
    omega
  unfold oscillate
  rw [e1, e2, e3, e4]

/-- The binary32 values met in the first three loop iterations of an
adventure-camera session. -/
theorem session_values :
    (f32 (-4 + f32 (1/200)) = -4189061/1048576 ∧
      f32 (-4189061/1048576 + f32 (1/200)) = -2091909/524288 ∧
      f32 (-2091909/524288 + f32 (1/200)) = -4178575/1048576) ∧
    (f32 (19 - f32 (1/5)) = 4928307/262144 ∧ f32 (0 + f32 (1/5)) = 13421773/67108864) ∧
    (f32 (4928307/262144 + 1/2) = 5059379/262144 ∧
      f32 (13421773/67108864 + 1/2) = 11744051/16777216 ∧
      f32 (0 + 1/2) = 1/2 ∧ f32 (0 + 3/2) = 3/2) ∧
    (f32 (0 + 0) = 0 ∧ f32 (0 + 3) = 3 ∧ f32 (19 + 3) = 22 ∧
      f32 (16777205/1048576 + 3) = 4980733/262144) := by
  decide!

/-- With every array entry 0, no cell test fires at a position with `z >= 1`. -/
theorem startup0_no_hit (g : Game) (hz : 1 ≤ g.z_cuboid) :
    ∀ i k, checkIfObs (startup0.x i) (startup0.z k) g = false := by
  intro i k
  unfold checkIfObs
  rw [if_neg]
  rintro ⟨-, -, -, h⟩
  simp only [startup0] at h
  norm_num at h
  linarith

/-- The first loop iteration (follow mode): the phase rises by one step and the
target becomes the player position. -/
theorem first_frame :
    frame startup0 initial = { initial with farsh_m_y := -4189061/1048576, z_target := 19 } := by
  obtain ⟨⟨v1, -, -⟩, -, -, w1, w2, w3, -⟩ := session_values
  have hv : f32 (initial.farsh_m_y + f32 (1/200)) = -4189061/1048576 := v1
  rw [frame_no_reset _ _ (by unfold InBox initial; norm_num)
      (startup0_no_hit _ (by simp only [initial]; norm_num)),
    oscillate_rise initial rfl (by simp only [initial]; norm_num) (by rw [hv]; norm_num),
    resolveCamera_follow _ rfl rfl rfl rfl, hv]
  simp only [enableFollowcam, initial, x_offset, y_offset, z_offset, Game.mk.injEq, w1, w2, w3]
  norm_num

/-! ## C10: the adventure camera -/

/-- C10 at a failing input.  After the events `advEvents` (adventure mode, UP
released, a loop iteration, RIGHT released) the state is `advFacingRight`:
facing right, player at `(0.2f, 0, 19 - 0.2f)`, target `(0, 0, 0)`.
`enableAdvcam` there, and the loop iteration that calls it, produce the target
`(20, 0, 0)`: `z_target` keeps the value left by the previous call and is not
the player's `z = 4928307/262144 = 18.7999992`. -/
theorem advcam_right_keeps_old_z_target :
    run startup0 advEvents initial = some advFacingRight ∧
    (advFacingRight.right_fl = 1 ∧ advFacingRight.left_fl = 0 ∧
      advFacingRight.up_fl = 0 ∧ advFacingRight.down_fl = 0 ∧
      advFacingRight.z_cuboid = 4928307/262144) ∧
    ((enableAdvcam advFacingRight).x_target = 20 ∧
      (enableAdvcam advFacingRight).y_target = 0 ∧
      (enableAdvcam advFacingRight).z_target = 0) ∧
    (run startup0 (advEvents ++ [Event.tick]) initial).map
      (fun g => ((g.x_cuboid, g.y_cuboid, g.z_cuboid), (g.x_target, g.y_target, g.z_target)))
      = some ((13421773/67108864, 0, 4928307/262144), (20, 0, 0)) := by
  obtain ⟨⟨-, v2, v3⟩, ⟨s1, s2⟩, ⟨c1, c2, c3, c4⟩, -⟩ := session_values
  -- A released, UP released
  have k2 : keyboard GLFW_KEY_A GLFW_RELEASE
      { initial with farsh_m_y := -4189061/1048576, z_target := 19 } =
      some { initial with farsh_m_y := -4189061/1048576, z_target := 19,
                          adv_fl := 1, follow_flag := 0 } := rfl
  have k3 : keyboard GLFW_KEY_UP GLFW_RELEASE
      { initial with farsh_m_y := -4189061/1048576, z_target := 19, adv_fl := 1,
                     follow_flag := 0 } =
      some { initial with farsh_m_y := -4189061/1048576, z_target := 19, adv_fl := 1,
                          follow_flag := 0, z_cuboid := 4928307/262144, up_fl := 1 } := by
    rw [keyboard_up_release]
    simp only [initial, Option.some.injEq, Game.mk.injEq, s1]
  -- the second loop iteration: adventure mode, facing up
  have f4 : frame startup0
      { initial with farsh_m_y := -4189061/1048576, z_target := 19, adv_fl := 1,
                     follow_flag := 0, z_cuboid := 4928307/262144, up_fl := 1 } =
      { initial with farsh_m_y := -2091909/524288, adv_fl := 1, follow_flag := 0,
                     z_cuboid := 4928307/262144, up_fl := 1,
                     x_cam := 1/2, y_cam := 3/2, z_cam := 5059379/262144 } := by
    rw [frame_no_reset _ _ (by unfold InBox initial; norm_num)
        (startup0_no_hit _ (by simp only [initial]; norm_num)),
      oscillate_rise _ rfl (by simp only [initial]; norm_num)
        (by simp only [initial]; rw [v2]; norm_num),
      resolveCamera_adv _ rfl rfl,
      enableAdvcam_up _ (by simp [initial]) (by simp [initial]) rfl (by simp [initial])]
    simp only [initial, Game.mk.injEq, v2, c1, c3, c4]
  -- RIGHT released
  have k5 : keyboard GLFW_KEY_RIGHT GLFW_RELEASE
      { initial with farsh_m_y := -2091909/524288, adv_fl := 1, follow_flag := 0,
                     z_cuboid := 4928307/262144, up_fl := 1,
                     x_cam := 1/2, y_cam := 3/2, z_cam := 5059379/262144 } =
      some advFacingRight := by
    rw [keyboard_right_release]
    simp only [advFacingRight, initial, Option.some.injEq, Game.mk.injEq, s2]
  -- the call of `enableAdvcam` facing right
  have e6 : enableAdvcam advFacingRight =
      { advFacingRight with x_cam := 11744051/16777216, x_target := 20 } := by
    rw [enableAdvcam_right _ rfl (by simp [advFacingRight, initial])
      (by simp [advFacingRight, initial]) (by simp [advFacingRight, initial])]
    simp only [advFacingRight, initial, Game.mk.injEq, c1, c2, c4]
  have f6 : frame startup0 advFacingRight =
      { advFacingRight with x_cam := 11744051/16777216, x_target := 20,
                            farsh_m_y := -4178575/1048576 } := by
    rw [frame_no_reset _ _ (by unfold InBox advFacingRight; norm_num)
        (startup0_no_hit _ (by simp only [advFacingRight]; norm_num)),
      oscillate_rise _ rfl (by simp only [advFacingRight]; norm_num)
        (by simp only [advFacingRight]; rw [v3]; norm_num),
      resolveCamera_adv _ rfl rfl,
      enableAdvcam_right _ rfl (by simp [advFacingRight, initial])
        (by simp [advFacingRight, initial]) (by simp [advFacingRight, initial])]
    simp only [advFacingRight, initial, Game.mk.injEq, v3, c1, c2, c4]
  have hrun : run startup0 advEvents initial = some advFacingRight := by
    rw [advEvents, run_tick, first_frame, run_key _ _ k2, run_key _ _ k3, run_tick, f4,
      run_key _ _ k5, run_nil]
  refine ⟨hrun, ⟨rfl, rfl, rfl, rfl, rfl⟩, ?_, ?_⟩
  · rw [e6]
    exact ⟨rfl, rfl, rfl⟩
  · show (run startup0 [Event.tick, Event.key GLFW_KEY_A GLFW_RELEASE,
      Event.key GLFW_KEY_UP GLFW_RELEASE, Event.tick,
      Event.key GLFW_KEY_RIGHT GLFW_RELEASE, Event.tick] initial).map _ = _
    rw [run_tick, first_frame, run_key _ _ k2, run_key _ _ k3, run_tick, f4,
      run_key _ _ k5, run_tick, f6, run_nil]
    rfl

/-! ## C11: the top camera -/

/-- C11.  For every state, a RELEASE of P returns a state from which the camera
resolution of the next loop iteration (it runs after the oscillation update)
yields `up = (0, 0, -1)`, `eye = (10, 15, 10)` and `target` equal to the player
position, which the key event and the resolution leave as it was; `enableTopcam`
itself yields the same three vectors from any state. -/
theorem top_camera (g : Game) :
    (∃ g1, keyboard GLFW_KEY_P GLFW_RELEASE g = some g1 ∧
      ((resolveCamera (oscillate g1)).x_axis, (resolveCamera (oscillate g1)).y_axis,
        (resolveCamera (oscillate g1)).z_axis) = (0, 0, -1) ∧
      ((resolveCamera (oscillate g1)).x_cam, (resolveCamera (oscillate g1)).y_cam,
        (resolveCamera (oscillate g1)).z_cam) = (10, 15, 10) ∧
      ((resolveCamera (oscillate g1)).x_target, (resolveCamera (oscillate g1)).y_target,
        (resolveCamera (oscillate g1)).z_target) = (g.x_cuboid, g.y_cuboid, g.z_cuboid) ∧
      ((resolveCamera (oscillate g1)).x_cuboid, (resolveCamera (oscillate g1)).y_cuboid,
        (resolveCamera (oscillate g1)).z_cuboid) = (g.x_cuboid, g.y_cuboid, g.z_cuboid)) ∧
    ((enableTopcam g).x_axis, (enableTopcam g).y_axis, (enableTopcam g).z_axis) = (0, 0, -1) ∧
    ((enableTopcam g).x_cam, (enableTopcam g).y_cam, (enableTopcam g).z_cam) = (10, 15, 10) ∧
    ((enableTopcam g).x_target, (enableTopcam g).y_target, (enableTopcam g).z_target) =
      (g.x_cuboid, g.y_cuboid, g.z_cuboid) := by
  refine ⟨⟨_, rfl, ?_⟩, rfl, rfl, rfl⟩
  obtain ⟨y, f, h⟩ := oscillate_eq
    { g with tower_fl := 0, adv_fl := 0, follow_flag := 0, heli_fl := 0, top_fl := 1 }
  rw [h, resolveCamera_top _ rfl rfl rfl]
  exact ⟨rfl, rfl, rfl, rfl⟩

/-! ## C12: the follow camera -/

/-- C12, as stated, fails in binary32: after the first loop iteration and
fifteen REPEAT events of UP the player is at `z = 16777205/1048576`
(`15.9999895`); the next loop iteration (follow mode) calls `enableFollowcam`,
which leaves `z_cam = 4980733/262144` (`18.9999886`, the rounded sum `z + 3`)
and `z_target = z`, so the third component of `eye - target` is
`3145727/1048576` (`2.9999990`), not 3. -/
theorem follow_offset_rounded :
    (run startup0 followEvents initial).map
      (fun g => (g.z_cuboid, g.z_cam, g.z_target, g.z_cam - g.z_target)) =
      some (16777205/1048576, 4980733/262144, 16777205/1048576, 3145727/1048576) ∧
    (3145727/1048576 : ℚ) ≠ 3 := by
  obtain ⟨-, -, -, -, -, -, c5⟩ := session_values
  have hz : (fun z => f32 (z - f32 (1/5)))^[15]
      ({ initial with farsh_m_y := -4189061/1048576, z_target := 19 } : Game).z_cuboid =
      16777205/1048576 := walk_fifteen
  obtain ⟨y, f, ho⟩ := oscillate_eq
    { initial with farsh_m_y := -4189061/1048576, z_target := 19,
                   z_cuboid := 16777205/1048576 }
  have f3 : frame startup0
      { initial with farsh_m_y := -4189061/1048576, z_target := 19,
                     z_cuboid := 16777205/1048576 } =
      enableFollowcam
        { initial with farsh_m_y := y, farsh_up_fl := f, z_target := 19,
                       z_cuboid := 16777205/1048576 } := by
    rw [frame_no_reset _ _ (by unfold InBox initial; norm_num)
        (startup0_no_hit _ (by simp only [initial]; norm_num)),
      ho, resolveCamera_follow _ rfl rfl rfl rfl]
  refine ⟨?_, by norm_num⟩
  rw [followEvents, run_tick, first_frame, run_held_up, hz, run_tick, run_nil, f3,
    Option.map_some']
  simp only [enableFollowcam, z_offset, c5]
  norm_num

/-- C12, amended.  For every state, after `enableFollowcam` the eye is the
binary32 sum of the player position and `(0, 3, 3)`, component by component, the
target is the player position, `up` is `(0, 1, 0)`, the player position is what
it was; and `eye - target = (0, 3, 3)` when the three sums are exact. -/
theorem follow_camera (g : Game) :
    ((enableFollowcam g).x_cam, (enableFollowcam g).y_cam, (enableFollowcam g).z_cam) =
      (f32 (g.x_cuboid + 0), f32 (g.y_cuboid + 3), f32 (g.z_cuboid + 3)) ∧
    ((enableFollowcam g).x_target, (enableFollowcam g).y_target,
      (enableFollowcam g).z_target) = (g.x_cuboid, g.y_cuboid, g.z_cuboid) ∧
    ((enableFollowcam g).x_axis, (enableFollowcam g).y_axis, (enableFollowcam g).z_axis) =
      (0, 1, 0) ∧
    ((enableFollowcam g).x_cuboid, (enableFollowcam g).y_cuboid,
      (enableFollowcam g).z_cuboid) = (g.x_cuboid, g.y_cuboid, g.z_cuboid) ∧
    (f32 (g.x_cuboid + 0) = g.x_cuboid + 0 → f32 (g.y_cuboid + 3) = g.y_cuboid + 3 →
      f32 (g.z_cuboid + 3) = g.z_cuboid + 3 →
      ((enableFollowcam g).x_cam - (enableFollowcam g).x_target,
        (enableFollowcam g).y_cam - (enableFollowcam g).y_target,
        (enableFollowcam g).z_cam - (enableFollowcam g).z_target) = (0, 3, 3)) := by
  refine ⟨rfl, rfl, rfl, rfl, ?_⟩
  intro hx hy hz
  simp only [enableFollowcam, x_offset, y_offset, z_offset, Prod.mk.injEq, hx, hy, hz]
  refine ⟨by ring, by ring, by ring⟩

/-- C12 amended, applied to the initial state, where the three sums are exact. -/
theorem follow_camera_witness :
    (f32 (initial.x_cuboid + 0) = initial.x_cuboid + 0 ∧
      f32 (initial.y_cuboid + 3) = initial.y_cuboid + 3 ∧
      f32 (initial.z_cuboid + 3) = initial.z_cuboid + 3) ∧
    ((enableFollowcam initial).x_cam - (enableFollowcam initial).x_target,
      (enableFollowcam initial).y_cam - (enableFollowcam initial).y_target,
      (enableFollowcam initial).z_cam - (enableFollowcam initial).z_target) = (0, 3, 3) := by
  have h : f32 (initial.x_cuboid + 0) = initial.x_cuboid + 0 ∧
      f32 (initial.y_cuboid + 3) = initial.y_cuboid + 3 ∧
      f32 (initial.z_cuboid + 3) = initial.z_cuboid + 3 := by decide!
  exact ⟨h, (follow_camera initial).2.2.2.2 h.1 h.2.1 h.2.2⟩

/-! ## C13: mode switches leave the player untouched -/

/-- C13.  For every state, a RELEASE of T, P, A or F and each of the four camera
resolvers leave the player position, the four facing flags, `jump_fl` and
`dir_up` as they were. -/
theorem mode_switch_keeps_player (g : Game) :
    (∃ g1, keyboard GLFW_KEY_T GLFW_RELEASE g = some g1 ∧ playerOf g1 = playerOf g) ∧
    (∃ g1, keyboard GLFW_KEY_P GLFW_RELEASE g = some g1 ∧ playerOf g1 = playerOf g) ∧
    (∃ g1, keyboard GLFW_KEY_A GLFW_RELEASE g = some g1 ∧ playerOf g1 = playerOf g) ∧
    (∃ g1, keyboard GLFW_KEY_F GLFW_RELEASE g = some g1 ∧ playerOf g1 = playerOf g) ∧
    playerOf (enableFollowcam g) = playerOf g ∧
    playerOf (enableTopcam g) = playerOf g ∧
    playerOf (enableTowercam g) = playerOf g ∧
    playerOf (enableAdvcam g) = playerOf g := by
  refine ⟨⟨_, rfl, rfl⟩, ⟨_, rfl, rfl⟩, ⟨_, rfl, rfl⟩, ⟨_, rfl, rfl⟩, rfl, rfl, rfl, ?_⟩
  obtain ⟨a, b, c, h⟩ := enableAdvcam_eq g
  rw [h]
  rfl

/-! ## C14: unexpected input -/

/-- C14.  `keyboard` returns the state it was given for a RELEASE of a key other
than UP, DOWN, LEFT, RIGHT, SPACE, T, P, A, F, for a REPEAT of a key other than
UP, DOWN, LEFT, RIGHT, for a PRESS of a key other than ESCAPE, and for every
action that is not RELEASE, REPEAT or PRESS; `keyboardChar` does so for every
character other than `'Q'` and `'q'`, and `mouseButton` for every button and
action. -/
theorem unexpected_input_ignored (g : Game) (key action : Int) (c : Nat) (button : Int) :
    (action = GLFW_RELEASE → key ≠ GLFW_KEY_UP → key ≠ GLFW_KEY_DOWN →
      key ≠ GLFW_KEY_LEFT → key ≠ GLFW_KEY_RIGHT → key ≠ GLFW_KEY_SPACE →
      key ≠ GLFW_KEY_T → key ≠ GLFW_KEY_P → key ≠ GLFW_KEY_A → key ≠ GLFW_KEY_F →
      keyboard key action g = some g) ∧
    (action = GLFW_REPEAT → key ≠ GLFW_KEY_UP → key ≠ GLFW_KEY_DOWN →
      key ≠ GLFW_KEY_LEFT → key ≠ GLFW_KEY_RIGHT → keyboard key action g = some g) ∧
    (action = GLFW_PRESS → key ≠ GLFW_KEY_ESCAPE → keyboard key action g = some g) ∧
    (action ≠ GLFW_RELEASE → action ≠ GLFW_REPEAT → action ≠ GLFW_PRESS →
      keyboard key action g = some g) ∧
    (c ≠ 81 → c ≠ 113 → keyboardChar c g = some g) ∧
    mouseButton button action g = g := by
  refine ⟨?_, ?_, ?_, ?_, ?_, ?_⟩
  · intro ha h1 h2 h3 h4 h5 h6 h7 h8 h9
    rw [keyboard, if_pos ha, if_neg h1, if_neg h2, if_neg h4, if_neg h3, if_neg h5,
      if_neg h6, if_neg h7, if_neg h8, if_neg h9]
  · intro ha h1 h2 h3 h4
    have hr : action ≠ GLFW_RELEASE := by rw [ha]; decide
    rw [keyboard, if_neg hr, if_pos ha, if_neg h1, if_neg h2, if_neg h4, if_neg h3]
  · intro ha h1
    have hr : action ≠ GLFW_RELEASE := by rw [ha]; decide
    have hp : action ≠ GLFW_REPEAT := by rw [ha]; decide
    rw [keyboard, if_neg hr, if_neg hp, if_pos ha, if_neg h1]
  · intro hr hp hq
    rw [keyboard, if_neg hr, if_neg hp, if_neg hq]
  · intro h1 h2
    rw [keyboardChar, if_neg h1, if_neg h2]
  · unfold mouseButton
    split_ifs <;> rfl

/-- C14 applied to a RELEASE of B (66), a REPEAT of SPACE, a PRESS of UP, the
action 3, the character `'a'` (97) and a mouse event, in the initial state. -/
theorem unexpected_input_ignored_witness :
    keyboard 66 GLFW_RELEASE initial = some initial ∧
    keyboard GLFW_KEY_SPACE GLFW_REPEAT initial = some initial ∧
    keyboard GLFW_KEY_UP GLFW_PRESS initial = some initial ∧
    keyboard GLFW_KEY_UP 3 initial = some initial ∧
    keyboardChar 97 initial = some initial ∧
    mouseButton GLFW_MOUSE_BUTTON_LEFT GLFW_PRESS initial = initial :=
  ⟨(unexpected_input_ignored initial 66 GLFW_RELEASE 97 0).1 rfl
      (by decide) (by decide) (by decide) (by decide) (by decide) (by decide) (by decide)
      (by decide) (by decide),
    (unexpected_input_ignored initial GLFW_KEY_SPACE GLFW_REPEAT 97 0).2.1 rfl
      (by decide) (by decide) (by decide) (by decide),
    (unexpected_input_ignored initial GLFW_KEY_UP GLFW_PRESS 97 0).2.2.1 rfl (by decide),
    (unexpected_input_ignored initial GLFW_KEY_UP 3 97 0).2.2.2.1
      (by decide) (by decide) (by decide),
    (unexpected_input_ignored initial 0 0 97 0).2.2.2.2.1 (by decide) (by decide),
    (unexpected_input_ignored initial 0 GLFW_PRESS 97 GLFW_MOUSE_BUTTON_LEFT).2.2.2.2.2⟩

/-! ## C15: the jump intent -/

/-- The result of a RELEASE of SPACE. -/
theorem keyboard_space_release (g : Game) :
    keyboard GLFW_KEY_SPACE GLFW_RELEASE g = some { g with jump_fl := 1 } := rfl

/-- C15.  In a state with `jump_fl = 1` a RELEASE of SPACE returns the state
unchanged; and from any state, two RELEASE events of SPACE give the same state
as one. -/
theorem jump_idempotent (g : Game) :
    (g.jump_fl = 1 → keyboard GLFW_KEY_SPACE GLFW_RELEASE g = some g) ∧
    (keyboard GLFW_KEY_SPACE GLFW_RELEASE g).bind (keyboard GLFW_KEY_SPACE GLFW_RELEASE) =
      keyboard GLFW_KEY_SPACE GLFW_RELEASE g := by
  refine ⟨?_, rfl⟩
  intro h
  rw [keyboard_space_release]
  cases g
  simp only at h
  subst h
  rfl

/-- C15 applied to the initial state after one RELEASE of SPACE. -/
theorem jump_idempotent_witness :
    jumping.jump_fl = 1 ∧ keyboard GLFW_KEY_SPACE GLFW_RELEASE jumping = some jumping :=
  ⟨rfl, (jump_idempotent jumping).1 rfl⟩

/-! ## C16: floor tile heights -/

/-- Every cell of the floor grid has its draw request in the list of one loop
iteration. -/
theorem floorCellRequest_mem (w : Startup) (g : Game) (i k : Nat) (hi : i < 17)
    (hk : k < 20) : floorCellRequest w g i k ∈ floorRequests w g := by
  unfold floorRequests
  exact List.mem_flatten.mpr ⟨_, List.mem_map.mpr ⟨i, List.mem_range.mpr hi, rfl⟩,
    List.mem_map.mpr ⟨k, List.mem_range.mpr hk, rfl⟩⟩

/-- C16 at a failing input.  In the first loop iteration (every `x[i]`, `z[i]`
is 0) the oscillation update gives `farsh_m_y = -4 + 0.005f`, which is
`-4189061/1048576 = -3.9949999`; cell `(0, 0)` is drawn
with `farsh_m_y`, and its draw request is the translation `(0, -3, 0)`: the
`float` is converted to the `int` parameter `y_floor` of `drawFloor`.  The
static cell `(1, 1)` is drawn at `(1, -1, 1)`. -/
theorem floor_height_truncated :
    (oscillate initial).farsh_m_y = -4189061/1048576 ∧
    floorCellRequest startup0 (oscillate initial) 0 0 = (0, -3, 0) ∧
    (0, -3, 0) ∈ floorRequests startup0 (oscillate initial) ∧
    floorCellRequest startup0 (oscillate initial) 1 1 = (1, -1, 1) := by
  have hv : f32 (initial.farsh_m_y + f32 (1/200)) = -4189061/1048576 :=
    session_values.1.1
  have hy : (oscillate initial).farsh_m_y = -4189061/1048576 := by
    rw [oscillate_rise initial rfl (by norm_num [initial]) (by rw [hv]; norm_num)]
    exact hv
  have hc : ⌈(-4189061/1048576 : ℚ)⌉ = -3 := by
    rw [Int.ceil_eq_iff]
    norm_num
  have h00 : floorCellRequest startup0 (oscillate initial) 0 0 = (0, -3, 0) := by
    unfold floorCellRequest
    rw [if_neg (by simp [startup0]), hy]
    unfold drawFloor floatToInt
    rw [if_neg (by norm_num), hc]
    rfl
  refine ⟨hy, h00, ?_, ?_⟩
  · rw [← h00]
    exact floorCellRequest_mem _ _ 0 0 (by decide) (by decide)
  · unfold floorCellRequest
    rw [if_pos (by simp [startup0])]
    unfold drawFloor floatToInt farsh_y
    rw [if_neg (by norm_num)]
    have : ⌈(-1 : ℚ)⌉ = -1 := by
      rw [Int.ceil_eq_iff]
      norm_num
    rw [this]
    rfl

/-! ## C17: the player height -/

/-- A key event writes neither `y_cuboid` nor a value other than 1 to
`jump_fl`. -/
theorem keyboard_height_jump {k a : Int} {g g1 : Game} (h : keyboard k a g = some g1) :
    g1.y_cuboid = g.y_cuboid ∧ (g.jump_fl = 1 → g1.jump_fl = 1) := by
  revert g1
  apply keyboard_rec
    (fun r => ∀ g1, r = some g1 → g1.y_cuboid = g.y_cuboid ∧ (g.jump_fl = 1 → g1.jump_fl = 1))
    k a g <;> intro g1 h <;>
    first
    | (cases h; done)
    | (cases h; exact ⟨rfl, fun hj => hj⟩)
    | (cases h; exact ⟨rfl, fun _ => rfl⟩)

/-- A loop iteration leaves the player part of the state alone, apart from the
position `(x, z)`. -/
theorem frame_height_jump (w : Startup) (g : Game) :
    (frame w g).y_cuboid = g.y_cuboid ∧ (frame w g).jump_fl = g.jump_fl := by
  have hp : playerOf (resolveCamera (oscillate g)) = playerOf g := by
    rw [resolveCamera_player, oscillate_player]
  have hy := playerOf_y hp
  have hj := playerOf_jump hp
  unfold frame
  rcases boundaryCheck_cases w (resolveCamera (oscillate g)) with e | e <;> rw [e]
  · rcases floorLoop_cases w (resolveCamera (oscillate g)) with e1 | e1 <;> rw [e1] <;>
      exact ⟨hy, hj⟩
  · rcases floorLoop_cases w
      { resolveCamera (oscillate g) with x_cuboid := 0, z_cuboid := 19 } with e1 | e1 <;>
      rw [e1] <;> exact ⟨hy, hj⟩

theorem reachable_height {w : Startup} {g : Game} (h : Reachable w g) : g.y_cuboid = 0 := by
  induction h with
  | init => rfl
  | key k a _ hk ih => rw [(keyboard_height_jump hk).1, ih]
  | camera _ ih => rw [playerOf_y (resolveCamera_player _), ih]
  | frame _ ih => rw [(frame_height_jump w _).1, ih]

theorem run_jump (w : Startup) (es : List Event) :
    ∀ g g1 : Game, g.jump_fl = 1 → run w es g = some g1 → g1.jump_fl = 1 := by
  induction es with
  | nil =>
    intro g g1 hj h
    cases h
    exact hj
  | cons e es ih =>
    intro g g1 hj h
    cases e with
    | key k a =>
      cases hk : keyboard k a g with
      | none =>
        rw [show run w (Event.key k a :: es) g = (keyboard k a g).bind (run w es) from rfl,
          hk] at h
        cases h
      | some g2 =>
        rw [run_key w es hk] at h
        exact ih g2 g1 ((keyboard_height_jump hk).2 hj) h
    | tick =>
      rw [run_tick] at h
      exact ih _ g1 (by rw [(frame_height_jump w g).2, hj]) h

/-- C17.  In every state reachable from the initial state by key events, camera
resolutions and loop iterations `y_cuboid` is 0; and from a state with
`jump_fl = 1`, every state reached by any sequence of key events and loop
iterations has `jump_fl = 1`. -/
theorem player_height_constant (w : Startup) (g : Game) (h : Reachable w g) :
    g.y_cuboid = 0 ∧
    (g.jump_fl = 1 →
      ∀ (es : List Event) (g1 : Game), run w es g = some g1 → g1.jump_fl = 1) :=
  ⟨reachable_height h, fun hj es g1 hr => run_jump w es g g1 hj hr⟩

/-- C17 applied to the state after a RELEASE of SPACE, followed by a RELEASE of
UP and a loop iteration. -/
theorem player_height_constant_witness :
    (Reachable startup0 jumping ∧ jumping.jump_fl = 1) ∧
    jumping.y_cuboid = 0 ∧
    (frame startup0 { jumping with z_cuboid := f32 (jumping.z_cuboid - f32 (1/5)),
                                   up_fl := 1, down_fl := 0, right_fl := 0,
                                   left_fl := 0 }).jump_fl = 1 :=
  have hr : Reachable startup0 jumping :=
    Reachable.key GLFW_KEY_SPACE GLFW_RELEASE Reachable.init rfl
  ⟨⟨hr, rfl⟩, (player_height_constant startup0 jumping hr).1,
    (player_height_constant startup0 jumping hr).2 rfl
      [Event.key GLFW_KEY_UP GLFW_RELEASE, Event.tick] _ rfl⟩

end MazeGame
